import Mathlib

/-!
# drivers/thermal/msm_thermal_simple.c

A shallow embedding of the hysteresis thermal governor: the per-cpu throttle
state, the configuration block, the polling work item `msm_thermal_main`, the
bulk reset `unthrottle_all_cpus`, the cpufreq policy notifier `cpu_do_throttle`
and the sysfs store handlers.

Conventions of the embedding.
* `unsigned int` / `unsigned long` values are natural numbers; the driver only
  compares and copies them, it never does arithmetic on them.
* `DEFINE_PER_CPU(struct throttle_policy, throttle_info)` is a function from the
  cpu number to the per-cpu record; the possible cpus are `0 .. nr_cpu_ids - 1`.
* The delayed work `thermal_work` is `none` when idle and `some delay` when
  queued with that delay (in jiffies).
* Calls that leave the driver (log lines, `cpufreq_update_policy`) are recorded
  in order as a list of events returned next to the new state.
-/

namespace MsmThermal

/-! ## Data model -/

/-- The `enum thermal_state` of the driver, in declaration order. -/
inductive thermal_state where
  | UNTHROTTLE
  | LOW_THROTTLE
  | MID_THROTTLE
  | HIGH_THROTTLE
  deriving DecidableEq, Repr

open thermal_state

/-- The integer value of an enumerator; C compares the states through it. -/
def thermal_state.toNat : thermal_state → Nat
  | UNTHROTTLE => 0
  | LOW_THROTTLE => 1
  | MID_THROTTLE => 2
  | HIGH_THROTTLE => 3

/-- The `struct throttle_policy` record kept for every cpu. -/
structure throttle_policy where
  cpu_throttle : thermal_state
  throttle_freq : Nat
  deriving DecidableEq, Repr

/-- The `struct thermal_config` block behind `t_conf`. -/
structure thermal_config where
  freq_high_KHz : Nat
  freq_mid_KHz : Nat
  freq_low_KHz : Nat
  trip_high_degC : Nat
  trip_mid_degC : Nat
  trip_low_degC : Nat
  reset_high_degC : Nat
  reset_mid_degC : Nat
  reset_low_degC : Nat
  sampling_ms : Nat
  enabled : Nat
  user_maxfreq : Nat
  deriving DecidableEq, Repr

/-- The sensor number read by the work item (`#define TSENS_SENSOR 0`). -/
def TSENS_SENSOR : Nat := 0

/-- The default poll period (`#define DEFAULT_SAMPLING_MS 3000`). -/
def DEFAULT_SAMPLING_MS : Nat := 3000

/-- The file-scope variables of the driver: `*t_conf`, the per-cpu
`throttle_info` and the pending state of `thermal_work`. -/
structure kstate where
  t_conf : thermal_config
  throttle_info : Nat → throttle_policy
  thermal_work : Option Nat

/-- What the driver sees of the rest of the kernel during one call: the number
of possible cpus, the online mask (stable between `get_online_cpus` and
`put_online_cpus`) and the `msecs_to_jiffies` conversion. -/
structure kenv where
  nr_cpu_ids : Nat
  cpu_online : Nat → Bool
  msecs_to_jiffies : Nat → Nat

/-- The calls that leave the driver, in the order they are made. -/
inductive event where
  | pr_err_tsens (sensor_num : Nat)
  | pr_warn_setting (freq : Nat) (temp : Nat)
  | pr_warn_unthrottled (temp : Nat)
  | cpufreq_update_policy (cpu : Nat)
  deriving DecidableEq, Repr

/-- Assignment through `&per_cpu(throttle_info, cpu)`. -/
def per_cpu_set (info : Nat → throttle_policy) (cpu : Nat) (t : throttle_policy) :
    Nat → throttle_policy :=
  fun c => if c = cpu then t else info c

/-- Modelled from the spec: the scheduler primitive "run this job once after a
delay" (`queue_delayed_work_on` of the workqueue core, which is not part of this
file). The one work item is either pending or not: queueing it while it is
pending leaves the pending run and its delay in place. -/
def queue_delayed_work_on (delay : Nat) (s : kstate) : kstate :=
  match s.thermal_work with
  | some _ => s
  | none => { s with thermal_work := some delay }

/-- Modelled from the spec: the scheduler primitive "cancel a pending run"
(`cancel_delayed_work_sync` of the workqueue core, which is not part of this
file). -/
def cancel_delayed_work_sync (s : kstate) : kstate :=
  { s with thermal_work := none }

/-! ## msm_thermal_main -/

/-- The `if / else if` chain of `msm_thermal_main` (low trip, low clear, mid
trip, mid clear, high trip, high clear) applied to one per-cpu record. -/
def msm_thermal_main_chain (c : thermal_config) (temp : Nat) (t : throttle_policy) :
    throttle_policy :=
  if temp ≥ c.trip_low_degC ∧ temp < c.trip_mid_degC ∧ t.cpu_throttle = UNTHROTTLE then
    { cpu_throttle := LOW_THROTTLE, throttle_freq := c.freq_low_KHz }
  else if temp ≤ c.reset_low_degC ∧ t.cpu_throttle.toNat > UNTHROTTLE.toNat then
    { t with cpu_throttle := UNTHROTTLE }
  else if temp ≥ c.trip_mid_degC ∧ temp < c.trip_high_degC ∧
      t.cpu_throttle.toNat < MID_THROTTLE.toNat then
    { cpu_throttle := MID_THROTTLE, throttle_freq := c.freq_mid_KHz }
  else if temp < c.reset_mid_degC ∧ t.cpu_throttle.toNat > LOW_THROTTLE.toNat then
    { cpu_throttle := LOW_THROTTLE, throttle_freq := c.freq_low_KHz }
  else if temp ≥ c.trip_high_degC ∧ t.cpu_throttle.toNat < HIGH_THROTTLE.toNat then
    { cpu_throttle := HIGH_THROTTLE, throttle_freq := c.freq_high_KHz }
  else if temp < c.reset_high_degC ∧ t.cpu_throttle.toNat > MID_THROTTLE.toNat then
    { cpu_throttle := MID_THROTTLE, throttle_freq := c.freq_mid_KHz }
  else
    t

/-- The variables that live across the iterations of the cpu loop. -/
structure loop_state where
  throttle_info : Nat → throttle_policy
  throttle_logged : Bool
  events : List event

/-- One iteration of `for_each_possible_cpu` in `msm_thermal_main`: the chain,
the once-per-cycle log line, and the policy update of an online cpu. -/
def msm_thermal_main_body (e : kenv) (c : thermal_config) (temp : Nat)
    (st : loop_state) (cpu : Nat) : loop_state :=
  let old_throttle := (st.throttle_info cpu).cpu_throttle
  let t := msm_thermal_main_chain c temp (st.throttle_info cpu)
  let info := per_cpu_set st.throttle_info cpu t
  let log := t.cpu_throttle ≠ old_throttle ∧ st.throttle_logged = false
  let logged : List event :=
    if log then
      (if t.cpu_throttle ≠ UNTHROTTLE then [event.pr_warn_setting t.throttle_freq temp]
       else [event.pr_warn_unthrottled temp])
    else []
  let notified : List event :=
    if e.cpu_online cpu then [event.cpufreq_update_policy cpu] else []
  { throttle_info := info
    throttle_logged := if log then true else st.throttle_logged
    events := st.events ++ logged ++ notified }

/-- The work function. `ret` and `temp` are what `tsens_get_temp` returned and
stored. The result is the new state and the events of this run. -/
def msm_thermal_main (e : kenv) (ret : Int) (temp : Nat) (s : kstate) :
    kstate × List event :=
  if ret ≠ 0 ∨ temp > 1000 then
    (queue_delayed_work_on (e.msecs_to_jiffies s.t_conf.sampling_ms) s,
      [event.pr_err_tsens TSENS_SENSOR])
  else
    let st := (List.range e.nr_cpu_ids).foldl (msm_thermal_main_body e s.t_conf temp)
      { throttle_info := s.throttle_info, throttle_logged := false, events := [] }
    (queue_delayed_work_on (e.msecs_to_jiffies s.t_conf.sampling_ms)
        { s with throttle_info := st.throttle_info },
      st.events)

/-! ## The transition rules as the specification words them -/

/-- One rule of the priority chain: when it applies and what it yields. -/
structure spec_rule where
  applies : thermal_config → Nat → throttle_policy → Bool
  result : thermal_config → throttle_policy → throttle_policy

/-- The six rules of the specification, in priority order. -/
def spec_rules : List spec_rule :=
  [ { applies := fun c temp t =>
        decide (c.trip_low_degC ≤ temp ∧ temp < c.trip_mid_degC ∧ t.cpu_throttle = UNTHROTTLE)
      result := fun c _ => ⟨LOW_THROTTLE, c.freq_low_KHz⟩ },
    { applies := fun c temp t =>
        decide (temp ≤ c.reset_low_degC ∧ t.cpu_throttle.toNat > UNTHROTTLE.toNat)
      result := fun _ t => ⟨UNTHROTTLE, t.throttle_freq⟩ },
    { applies := fun c temp t =>
        decide (c.trip_mid_degC ≤ temp ∧ temp < c.trip_high_degC ∧
          t.cpu_throttle.toNat < MID_THROTTLE.toNat)
      result := fun c _ => ⟨MID_THROTTLE, c.freq_mid_KHz⟩ },
    { applies := fun c temp t =>
        decide (temp < c.reset_mid_degC ∧ t.cpu_throttle.toNat > LOW_THROTTLE.toNat)
      result := fun c _ => ⟨LOW_THROTTLE, c.freq_low_KHz⟩ },
    { applies := fun c temp t =>
        decide (c.trip_high_degC ≤ temp ∧ t.cpu_throttle.toNat < HIGH_THROTTLE.toNat)
      result := fun c _ => ⟨HIGH_THROTTLE, c.freq_high_KHz⟩ },
    { applies := fun c temp t =>
        decide (temp < c.reset_high_degC ∧ t.cpu_throttle.toNat > MID_THROTTLE.toNat)
      result := fun c _ => ⟨MID_THROTTLE, c.freq_mid_KHz⟩ } ]

/-- First-match evaluation of an ordered rule list; no rule matching leaves
the record as it is. -/
def spec_first_match (rules : List spec_rule) (c : thermal_config) (temp : Nat)
    (t : throttle_policy) : throttle_policy :=
  match rules with
  | [] => t
  | r :: rs => if r.applies c temp t then r.result c t else spec_first_match rs c temp t

/-! ## unthrottle_all_cpus -/

/-- One iteration of `for_each_possible_cpu` in `unthrottle_all_cpus`; the loop
carries the per-cpu records and the events issued so far. -/
def unthrottle_all_cpus_body (e : kenv) (st : (Nat → throttle_policy) × List event)
    (cpu : Nat) : (Nat → throttle_policy) × List event :=
  let t : throttle_policy := { st.1 cpu with cpu_throttle := UNTHROTTLE }
  let notified : List event :=
    if e.cpu_online cpu then [event.cpufreq_update_policy cpu] else []
  (per_cpu_set st.1 cpu t, st.2 ++ notified)

/-- The bulk reset used when throttling is switched off. -/
def unthrottle_all_cpus (e : kenv) (s : kstate) : kstate × List event :=
  let st := (List.range e.nr_cpu_ids).foldl (unthrottle_all_cpus_body e) (s.throttle_info, [])
  ({ s with throttle_info := st.1 }, st.2)

/-! ## cpu_do_throttle -/

/-- The `cpuinfo` member of `struct cpufreq_policy`: the hardware limits. -/
structure cpufreq_cpuinfo where
  max_freq : Nat
  min_freq : Nat
  deriving DecidableEq, Repr

/-- The members of `struct cpufreq_policy` that the notifier reads or writes. -/
structure cpufreq_policy where
  cpu : Nat
  cpuinfo : cpufreq_cpuinfo
  min : Nat
  max : Nat
  deriving DecidableEq, Repr

/-- The notifier event "about to adjust the limits" (`CPUFREQ_ADJUST` of
`linux/cpufreq.h`, value 0). -/
def CPUFREQ_ADJUST : Nat := 0

/-- The notifier return code (`NOTIFY_OK` of `linux/notifier.h`, value 1). -/
def NOTIFY_OK : Int := 1

/-- The cpufreq policy notifier. It returns the (untouched) driver state, the
policy object after the call and the notifier return code. -/
def cpu_do_throttle (s : kstate) (val : Nat) (policy : cpufreq_policy) :
    kstate × cpufreq_policy × Int :=
  let t := s.throttle_info policy.cpu
  let user_max := s.t_conf.user_maxfreq
  if val ≠ CPUFREQ_ADJUST then
    (s, policy, NOTIFY_OK)
  else
    let policy1 : cpufreq_policy :=
      match t.cpu_throttle with
      | UNTHROTTLE =>
        { policy with max := if user_max ≠ 0 then user_max else policy.cpuinfo.max_freq }
      | LOW_THROTTLE | MID_THROTTLE | HIGH_THROTTLE =>
        if user_max ≠ 0 ∧ user_max < t.throttle_freq then
          { policy with max := user_max }
        else
          { policy with max := t.throttle_freq }
    let policy2 : cpufreq_policy :=
      if policy1.min > policy1.max then { policy1 with min := policy1.cpuinfo.min_freq }
      else policy1
    (s, policy2, NOTIFY_OK)

/-! ## sysfs store handlers

`ret` is the return value of `sscanf` and `data0 ..` are the values it stored;
the handlers return the new state and the `ssize_t` result. -/

/-- The errno `EINVAL`. -/
def EINVAL : Int := 22

/-- Store handler of `high_thresh`. -/
def high_thresh_write (s : kstate) (ret : Int) (data0 data1 data2 : Nat) (size : Nat) :
    kstate × Int :=
  if ret ≠ 3 then (s, -EINVAL)
  else
    ({ s with t_conf := { s.t_conf with
        freq_high_KHz := data0, trip_high_degC := data1, reset_high_degC := data2 } }, size)

/-- Store handler of `mid_thresh`. -/
def mid_thresh_write (s : kstate) (ret : Int) (data0 data1 data2 : Nat) (size : Nat) :
    kstate × Int :=
  if ret ≠ 3 then (s, -EINVAL)
  else
    ({ s with t_conf := { s.t_conf with
        freq_mid_KHz := data0, trip_mid_degC := data1, reset_mid_degC := data2 } }, size)

/-- Store handler of `low_thresh`. -/
def low_thresh_write (s : kstate) (ret : Int) (data0 data1 data2 : Nat) (size : Nat) :
    kstate × Int :=
  if ret ≠ 3 then (s, -EINVAL)
  else
    ({ s with t_conf := { s.t_conf with
        freq_low_KHz := data0, trip_low_degC := data1, reset_low_degC := data2 } }, size)

/-- Store handler of `sampling_ms`. -/
def sampling_ms_write (s : kstate) (ret : Int) (data : Nat) (size : Nat) : kstate × Int :=
  if ret ≠ 1 then (s, -EINVAL)
  else ({ s with t_conf := { s.t_conf with sampling_ms := data } }, size)

/-- Store handler of `enabled`: stores the flag, cancels the work, then either
queues it with no delay or unthrottles every cpu. -/
def enabled_write (e : kenv) (s : kstate) (ret : Int) (data : Nat) (size : Nat) :
    kstate × Int × List event :=
  if ret ≠ 1 then (s, -EINVAL, [])
  else
    let s1 : kstate := { s with t_conf := { s.t_conf with enabled := data } }
    let s2 := cancel_delayed_work_sync s1
    if data ≠ 0 then
      (queue_delayed_work_on 0 s2, size, [])
    else
      ((unthrottle_all_cpus e s2).1, size, (unthrottle_all_cpus e s2).2)

/-- Store handler of `user_maxfreq`. -/
def user_maxfreq_write (s : kstate) (ret : Int) (data : Nat) (size : Nat) : kstate × Int :=
  if ret ≠ 1 then (s, -EINVAL)
  else ({ s with t_conf := { s.t_conf with user_maxfreq := data } }, size)

/-! ## Runs of the driver -/

/-- The block returned by `kzalloc`: every member zero. -/
def thermal_config_zero : thermal_config :=
  { freq_high_KHz := 0, freq_mid_KHz := 0, freq_low_KHz := 0,
    trip_high_degC := 0, trip_mid_degC := 0, trip_low_degC := 0,
    reset_high_degC := 0, reset_mid_degC := 0, reset_low_degC := 0,
    sampling_ms := 0, enabled := 0, user_maxfreq := 0 }

/-- The state right after a successful `msm_thermal_init`: a zeroed block with
the default poll period, zero-initialised per-cpu records, no work queued. -/
def initial_state : kstate :=
  { t_conf := { thermal_config_zero with sampling_ms := DEFAULT_SAMPLING_MS }
    throttle_info := fun _ => { cpu_throttle := UNTHROTTLE, throttle_freq := 0 }
    thermal_work := none }

/-- What can happen to the driver: a poll cycle, an Unthrottle-All call, or a
write (well-formed or not) to one of the six attributes. The actions that walk
over the cpus carry the online mask of the moment. -/
inductive action where
  | poll (cpu_online : Nat → Bool) (ret : Int) (temp : Nat)
  | unthrottle_all (cpu_online : Nat → Bool)
  | high_thresh (ret : Int) (data0 data1 data2 : Nat) (size : Nat)
  | mid_thresh (ret : Int) (data0 data1 data2 : Nat) (size : Nat)
  | low_thresh (ret : Int) (data0 data1 data2 : Nat) (size : Nat)
  | sampling_ms (ret : Int) (data : Nat) (size : Nat)
  | enabled (cpu_online : Nat → Bool) (ret : Int) (data : Nat) (size : Nat)
  | user_maxfreq (ret : Int) (data : Nat) (size : Nat)

/-- The state after an action, the poll cycle being a plain call of
`msm_thermal_main`. `k` gives what is fixed at boot (the number of possible
cpus, the jiffies conversion); its online mask is replaced by the action's. -/
def apply_action (k : kenv) (s : kstate) : action → kstate
  | action.poll online ret temp =>
    (msm_thermal_main { k with cpu_online := online } ret temp s).1
  | action.unthrottle_all online => (unthrottle_all_cpus { k with cpu_online := online } s).1
  | action.high_thresh ret d0 d1 d2 size => (high_thresh_write s ret d0 d1 d2 size).1
  | action.mid_thresh ret d0 d1 d2 size => (mid_thresh_write s ret d0 d1 d2 size).1
  | action.low_thresh ret d0 d1 d2 size => (low_thresh_write s ret d0 d1 d2 size).1
  | action.sampling_ms ret d size => (sampling_ms_write s ret d size).1
  | action.enabled online ret d size =>
    (enabled_write { k with cpu_online := online } s ret d size).1
  | action.user_maxfreq ret d size => (user_maxfreq_write s ret d size).1

/-- The state after a sequence of actions. -/
def run_actions (k : kenv) (s : kstate) (acts : List action) : kstate :=
  acts.foldl (apply_action k) s

/-- A step under the scheduler: the work function runs only when the work is
pending, and the workqueue clears the pending state before it calls it. Every
other action is always possible. -/
def sched_step (k : kenv) (s : kstate) : action → Option kstate
  | action.poll online ret temp =>
    match s.thermal_work with
    | none => none
    | some _ =>
      some (msm_thermal_main { k with cpu_online := online } ret temp
        { s with thermal_work := none }).1
  | a => some (apply_action k s a)

/-- A run under the scheduler; `none` when some step was not possible. -/
def sched_run (k : kenv) (s : kstate) : List action → Option kstate
  | [] => some s
  | a :: acts =>
    match sched_step k s a with
    | none => none
    | some s1 => sched_run k s1 acts

/-- The disabled-state invariant: the cpus beyond the possible ones are never
throttled and, while the enable flag is 0, no cpu is throttled and no run of the
work function is pending. -/
def disabled_inv (k : kenv) (s : kstate) : Prop :=
  (∀ cpu, k.nr_cpu_ids ≤ cpu → (s.throttle_info cpu).cpu_throttle = UNTHROTTLE) ∧
  (s.t_conf.enabled = 0 →
    (∀ cpu, (s.throttle_info cpu).cpu_throttle = UNTHROTTLE) ∧ s.thermal_work = none)

/-! ## The two halves of a loop iteration -/

/-- The first part of an iteration of the cpu loop of `msm_thermal_main`, up to
and including the logging block: the chain on the per-cpu record and the
once-per-cycle log line. -/
def msm_thermal_main_update (c : thermal_config) (temp : Nat) (st : loop_state)
    (cpu : Nat) : loop_state :=
  let old_throttle := (st.throttle_info cpu).cpu_throttle
  let t := msm_thermal_main_chain c temp (st.throttle_info cpu)
  let log := t.cpu_throttle ≠ old_throttle ∧ st.throttle_logged = false
  let logged : List event :=
    if log then
      (if t.cpu_throttle ≠ UNTHROTTLE then [event.pr_warn_setting t.throttle_freq temp]
       else [event.pr_warn_unthrottled temp])
    else []
  { throttle_info := per_cpu_set st.throttle_info cpu t
    throttle_logged := if log then true else st.throttle_logged
    events := st.events ++ logged }

/-- The last part of an iteration of the cpu loop of `msm_thermal_main`: the
`cpufreq_update_policy` call for an online cpu. -/
def msm_thermal_main_notify (e : kenv) (st : loop_state) (cpu : Nat) : loop_state :=
  { st with
    events := st.events ++ (if e.cpu_online cpu then [event.cpufreq_update_policy cpu] else []) }

/-- The loop variables of `msm_thermal_main` after the iterations for the cpus
`0 .. n - 1`. -/
def msm_thermal_main_loop (e : kenv) (s : kstate) (temp : Nat) (n : Nat) : loop_state :=
  (List.range n).foldl (msm_thermal_main_body e s.t_conf temp)
    { throttle_info := s.throttle_info, throttle_logged := false, events := [] }

/-- The event is a `cpufreq_update_policy` call. -/
def event.is_request : event → Bool
  | event.cpufreq_update_policy _ => true
  | _ => false

/-! ## msm_thermal_init -/

/-- The errno `EFAULT`. -/
def EFAULT : Int := 14

/-- The errno `ENOMEM`. -/
def ENOMEM : Int := 12

/-- What `msm_thermal_init` sets up: the workqueue, the registration of
`cpu_throttle_nb` on the cpufreq policy notifier chain, the block behind
`t_conf` (`none` for a null pointer), the initialised work item, the kobject and
the attribute group under it. -/
structure module_state where
  thermal_wq : Bool
  notifier_registered : Bool
  t_conf : Option thermal_config
  work_initialized : Bool
  msm_thermal_kobject : Bool
  sysfs_group : Bool
  deriving DecidableEq, Repr

/-- The state before `msm_thermal_init` runs. -/
def module_state_unloaded : module_state :=
  { thermal_wq := false, notifier_registered := false, t_conf := none,
    work_initialized := false, msm_thermal_kobject := false, sysfs_group := false }

/-- The init function as a function of the outcomes of its calls:
`alloc_workqueue`, `kzalloc` and `kobject_create_and_add` returned a non-null
pointer or not, and `sysfs_create_group` returned `sysfs_ret`. The result is the
state it leaves and its return value. A `kobject_put` of the fresh kobject
removes it again. -/
def msm_thermal_init (wq_ok kzalloc_ok kobject_ok : Bool) (sysfs_ret : Int) :
    module_state × Int :=
  if wq_ok = false then
    (module_state_unloaded, -EFAULT)
  else
    let m1 : module_state :=
      { module_state_unloaded with thermal_wq := true, notifier_registered := true }
    if kzalloc_ok = false then
      (m1, -ENOMEM)
    else
      let m2 : module_state :=
        { m1 with
          t_conf := some { thermal_config_zero with sampling_ms := DEFAULT_SAMPLING_MS }
          work_initialized := true }
      if kobject_ok = false then
        (m2, -ENOMEM)
      else
        let m3 : module_state := { m2 with msm_thermal_kobject := true }
        if sysfs_ret ≠ 0 then
          ({ m3 with msm_thermal_kobject := false }, sysfs_ret)
        else
          ({ m3 with sysfs_group := true }, sysfs_ret)

/-- Some allocation or registration of `msm_thermal_init` failed. -/
def init_failed (wq_ok kzalloc_ok kobject_ok : Bool) (sysfs_ret : Int) : Prop :=
  wq_ok = false ∨ kzalloc_ok = false ∨ kobject_ok = false ∨ sysfs_ret ≠ 0

/-! ## Predicates on runs with a fixed configuration -/

/-- The action is a poll cycle or an Unthrottle-All call (it writes no
attribute). -/
def action.is_cycle : action → Prop
  | action.poll _ _ _ => True
  | action.unthrottle_all _ => True
  | _ => False

/-- The cap of a throttled record is the ceiling of its own level. -/
def cap_matches_level (c : thermal_config) (t : throttle_policy) : Prop :=
  (t.cpu_throttle = LOW_THROTTLE → t.throttle_freq = c.freq_low_KHz) ∧
  (t.cpu_throttle = MID_THROTTLE → t.throttle_freq = c.freq_mid_KHz) ∧
  (t.cpu_throttle = HIGH_THROTTLE → t.throttle_freq = c.freq_high_KHz)

/-! ## Auxiliary predicates and concrete inputs -/

/-- Two levels are at most one step apart in `UNTHROTTLE < LOW < MID < HIGH`. -/
def within_one_step (a b : thermal_state) : Prop :=
  a.toNat ≤ b.toNat + 1 ∧ b.toNat ≤ a.toNat + 1

instance (a b : thermal_state) : Decidable (within_one_step a b) :=
  inferInstanceAs (Decidable (a.toNat ≤ b.toNat + 1 ∧ b.toNat ≤ a.toNat + 1))

/-- The readings at which the chain moves a cpu at the given level by more than
one step: the mid or high trip from `UNTHROTTLE`, the high trip from
`LOW_THROTTLE`, the low clear from `MID_THROTTLE`, the low or mid clear from
`HIGH_THROTTLE`. -/
def skips_a_level (c : thermal_config) (temp : Nat) : thermal_state → Prop
  | UNTHROTTLE =>
    c.trip_mid_degC ≤ temp ∨ (c.trip_high_degC ≤ temp ∧ temp < c.trip_low_degC)
  | LOW_THROTTLE => c.reset_low_degC < temp ∧ c.trip_high_degC ≤ temp
  | MID_THROTTLE => temp ≤ c.reset_low_degC
  | HIGH_THROTTLE => temp ≤ c.reset_low_degC ∨ temp < c.reset_mid_degC

/-- The value is one of the three frequency ceilings of the configuration. -/
def is_ceiling (c : thermal_config) (f : Nat) : Prop :=
  f = c.freq_low_KHz ∨ f = c.freq_mid_KHz ∨ f = c.freq_high_KHz

instance (c : thermal_config) (f : Nat) : Decidable (is_ceiling c f) :=
  inferInstanceAs (Decidable (f = c.freq_low_KHz ∨ f = c.freq_mid_KHz ∨ f = c.freq_high_KHz))

/-- Two configurations have the same three frequency ceilings. -/
def same_ceilings (c d : thermal_config) : Prop :=
  c.freq_low_KHz = d.freq_low_KHz ∧ c.freq_mid_KHz = d.freq_mid_KHz ∧
    c.freq_high_KHz = d.freq_high_KHz

instance (c d : thermal_config) : Decidable (same_ceilings c d) :=
  inferInstanceAs (Decidable (c.freq_low_KHz = d.freq_low_KHz ∧
    c.freq_mid_KHz = d.freq_mid_KHz ∧ c.freq_high_KHz = d.freq_high_KHz))

/-- Along the run from `s`, every action that changes one of the three
frequency ceilings is applied in a state in which the cpu is at `UNTHROTTLE`. -/
def ceiling_writes_while_unthrottled (k : kenv) (cpu : Nat) (s : kstate) : List action → Prop
  | [] => True
  | a :: acts =>
    ((s.throttle_info cpu).cpu_throttle = UNTHROTTLE
        ∨ same_ceilings s.t_conf (apply_action k s a).t_conf) ∧
      ceiling_writes_while_unthrottled k cpu (apply_action k s a) acts

/-- A four-cpu system with cpus 0 and 1 online and one jiffy per 10 ms. -/
def env4 : kenv :=
  { nr_cpu_ids := 4, cpu_online := fun c => decide (c < 2), msecs_to_jiffies := fun ms => ms / 10 }

/-- A configuration with strictly increasing trip points and every reset
point below its trip point. -/
def conf_ordered : thermal_config :=
  { freq_high_KHz := 300000, freq_mid_KHz := 600000, freq_low_KHz := 900000,
    trip_high_degC := 70, trip_mid_degC := 60, trip_low_degC := 50,
    reset_high_degC := 65, reset_mid_degC := 55, reset_low_degC := 45,
    sampling_ms := 3000, enabled := 1, user_maxfreq := 0 }

/-- The driver with `conf_ordered`, every cpu unthrottled, no work queued. -/
def state_ordered : kstate :=
  { initial_state with t_conf := conf_ordered }

/-- The driver with `conf_ordered` and a user maximum of 500 MHz, cpu 0 at
`MID_THROTTLE` with the mid ceiling as its cap, the other cpus unthrottled. -/
def state_mid : kstate :=
  { t_conf := { conf_ordered with user_maxfreq := 500000 }
    throttle_info := fun c =>
      if c = 0 then { cpu_throttle := MID_THROTTLE, throttle_freq := 600000 }
      else { cpu_throttle := UNTHROTTLE, throttle_freq := 0 }
    thermal_work := none }

/-- A policy object for cpu 0 with hardware limits 300 MHz .. 2.2 GHz. -/
def policy_cpu0 : cpufreq_policy :=
  { cpu := 0, cpuinfo := { max_freq := 2200000, min_freq := 300000 },
    min := 300000, max := 2200000 }

/-- A configuration whose low reset point equals its low trip point; the trip
points increase and no reset point is above its trip point. -/
def conf_low_boundary : thermal_config :=
  { conf_ordered with reset_low_degC := 50 }

/-- A run that configures the three bands, polls once at 52 degrees and then
rewrites the low band with another ceiling. -/
def acts_retune : List action :=
  [ action.low_thresh 3 900000 50 45 16,
    action.mid_thresh 3 600000 60 55 16,
    action.high_thresh 3 300000 70 65 16,
    action.poll (fun c => decide (c < 2)) 0 52,
    action.low_thresh 3 800000 50 45 16 ]

/-- A run that configures the three bands, polls at 52 degrees, rewrites the
poll period and the low thresholds (keeping the low ceiling) and polls at 65
degrees. -/
def acts_tuned : List action :=
  [ action.low_thresh 3 900000 50 45 16,
    action.mid_thresh 3 600000 60 55 16,
    action.high_thresh 3 300000 70 65 16,
    action.poll (fun c => decide (c < 2)) 0 52,
    action.sampling_ms 1 1000 5,
    action.low_thresh 3 900000 48 44 16,
    action.poll (fun c => decide (c < 2)) 0 65 ]

/-- A run that switches the governor on, lets the work run once at 72 degrees
and switches it off again. -/
def acts_on_off : List action :=
  [ action.high_thresh 3 300000 70 65 16,
    action.enabled (fun c => decide (c < 2)) 1 1 2,
    action.poll (fun c => decide (c < 2)) 0 72,
    action.enabled (fun c => decide (c < 2)) 1 0 2 ]

/-- A configuration whose low and mid trip points coincide; the trip points
are non-decreasing and no reset point is above its trip point. -/
def conf_equal_trips : thermal_config :=
  { conf_ordered with trip_mid_degC := 50, reset_mid_degC := 45 }

/-- The driver with `conf_equal_trips`, every cpu unthrottled. -/
def state_equal_trips : kstate :=
  { initial_state with t_conf := conf_equal_trips }

/-- The driver with `conf_low_boundary`, every cpu unthrottled. -/
def state_low_boundary : kstate :=
  { initial_state with t_conf := conf_low_boundary }

/-- The driver with `conf_ordered` and a user maximum of 100 MHz, below the
hardware minimum of `policy_cpu0`; every cpu unthrottled. -/
def state_user_low : kstate :=
  { initial_state with t_conf := { conf_ordered with user_maxfreq := 100000 } }

/-- A policy object for cpu 0 whose incoming limits are 500 MHz .. 1 GHz. -/
def policy_cpu0_narrow : cpufreq_policy :=
  { policy_cpu0 with min := 500000, max := 1000000 }

/-- The notifier event `CPUFREQ_NOTIFY` of `linux/cpufreq.h` (value 2), one of
the events other than `CPUFREQ_ADJUST`. -/
def CPUFREQ_NOTIFY : Nat := 2

/-- The driver with `conf_ordered` and a run of the work function pending
with no delay. -/
def state_pending : kstate :=
  { state_ordered with thermal_work := some 0 }

/-- Four cycles under one configuration: polls at 52 and 65 degrees, an
Unthrottle-All call, a poll at 72 degrees. -/
def acts_cycles : List action :=
  [ action.poll (fun c => decide (c < 2)) 0 52,
    action.poll (fun c => decide (c < 2)) 0 65,
    action.unthrottle_all (fun c => decide (c < 2)),
    action.poll (fun c => decide (c < 2)) 0 72 ]

/-! ## Lemmas about the cpu loop -/

theorem main_fold_info_of_not_mem (e : kenv) (c : thermal_config) (temp cpu : Nat)
    (l : List Nat) (st : loop_state) (h : cpu ∉ l) :
    (l.foldl (msm_thermal_main_body e c temp) st).throttle_info cpu = st.throttle_info cpu := by
  induction l generalizing st with
  | nil => rfl
  | cons a l ih =>
    have ha : cpu ≠ a := fun hEq => h (hEq ▸ List.mem_cons_self _ _)
    have hl : cpu ∉ l := fun hm => h (List.mem_cons_of_mem _ hm)
    rw [List.foldl_cons, ih _ hl]
    simp [msm_thermal_main_body, per_cpu_set, ha]

theorem main_fold_info_of_mem (e : kenv) (c : thermal_config) (temp cpu : Nat)
    (l : List Nat) (st : loop_state) (hnd : l.Nodup) (h : cpu ∈ l) :
    (l.foldl (msm_thermal_main_body e c temp) st).throttle_info cpu
      = msm_thermal_main_chain c temp (st.throttle_info cpu) := by
  induction l generalizing st with
  | nil => cases h
  | cons a l ih =>
    rw [List.nodup_cons] at hnd
    rw [List.foldl_cons]
    rcases List.mem_cons.mp h with hEq | hm
    · subst hEq
      rw [main_fold_info_of_not_mem e c temp cpu l _ hnd.1]
      simp [msm_thermal_main_body, per_cpu_set]
    · have ha : cpu ≠ a := fun hEq => hnd.1 (hEq ▸ hm)
      rw [ih _ hnd.2 hm]
      simp [msm_thermal_main_body, per_cpu_set, ha]

theorem main_info_valid (e : kenv) (s : kstate) (temp cpu : Nat) (htemp : temp ≤ 1000) :
    (msm_thermal_main e 0 temp s).1.throttle_info cpu
      = if cpu < e.nr_cpu_ids then msm_thermal_main_chain s.t_conf temp (s.throttle_info cpu)
        else s.throttle_info cpu := by
  have hq : ∀ (d : Nat) (k : kstate),
      (queue_delayed_work_on d k).throttle_info = k.throttle_info := by
    intro d k
    unfold queue_delayed_work_on
    cases k.thermal_work <;> rfl
  have hnot : ¬ ((0 : Int) ≠ 0 ∨ temp > 1000) := by omega
  unfold msm_thermal_main
  rw [if_neg hnot]
  simp only [hq]
  by_cases hc : cpu < e.nr_cpu_ids
  · rw [if_pos hc]
    exact main_fold_info_of_mem e s.t_conf temp cpu _ _ (List.nodup_range _)
      (List.mem_range.mpr hc)
  · rw [if_neg hc]
    exact main_fold_info_of_not_mem e s.t_conf temp cpu _ _
      (fun hm => hc (List.mem_range.mp hm))

theorem chain_eq_spec (c : thermal_config) (temp : Nat) (t : throttle_policy) :
    msm_thermal_main_chain c temp t = spec_first_match spec_rules c temp t := by
  simp only [msm_thermal_main_chain, spec_rules, spec_first_match, decide_eq_true_eq, ge_iff_le]

theorem main_t_conf (e : kenv) (ret : Int) (temp : Nat) (s : kstate) :
    (msm_thermal_main e ret temp s).1.t_conf = s.t_conf := by
  unfold msm_thermal_main queue_delayed_work_on
  split_ifs <;> dsimp only <;> split <;> rfl

theorem main_info_fault (e : kenv) (ret : Int) (temp : Nat) (s : kstate)
    (h : ret ≠ 0 ∨ temp > 1000) :
    (msm_thermal_main e ret temp s).1.throttle_info = s.throttle_info := by
  unfold msm_thermal_main queue_delayed_work_on
  rw [if_pos h]
  dsimp only
  split <;> rfl

theorem chain_within_one_step_iff (c : thermal_config) (temp : Nat) (t : throttle_policy) :
    within_one_step t.cpu_throttle (msm_thermal_main_chain c temp t).cpu_throttle
      ↔ ¬ skips_a_level c temp t.cpu_throttle := by
  obtain ⟨l, f⟩ := t
  cases l <;>
    simp only [msm_thermal_main_chain, within_one_step, skips_a_level, thermal_state.toNat] <;>
    split_ifs <;> simp only [thermal_state.toNat] <;> simp_all <;> omega

theorem chain_unthrottle (c : thermal_config) (temp f : Nat) :
    msm_thermal_main_chain c temp ⟨UNTHROTTLE, f⟩
      = if c.trip_low_degC ≤ temp ∧ temp < c.trip_mid_degC then ⟨LOW_THROTTLE, c.freq_low_KHz⟩
        else if c.trip_mid_degC ≤ temp ∧ temp < c.trip_high_degC then
          ⟨MID_THROTTLE, c.freq_mid_KHz⟩
        else if c.trip_high_degC ≤ temp then ⟨HIGH_THROTTLE, c.freq_high_KHz⟩
        else ⟨UNTHROTTLE, f⟩ := by
  simp [msm_thermal_main_chain, thermal_state.toNat]

theorem chain_low (c : thermal_config) (temp f : Nat) :
    msm_thermal_main_chain c temp ⟨LOW_THROTTLE, f⟩
      = if temp ≤ c.reset_low_degC then ⟨UNTHROTTLE, f⟩
        else if c.trip_mid_degC ≤ temp ∧ temp < c.trip_high_degC then
          ⟨MID_THROTTLE, c.freq_mid_KHz⟩
        else if c.trip_high_degC ≤ temp then ⟨HIGH_THROTTLE, c.freq_high_KHz⟩
        else ⟨LOW_THROTTLE, f⟩ := by
  simp [msm_thermal_main_chain, thermal_state.toNat]

theorem chain_mid (c : thermal_config) (temp f : Nat) :
    msm_thermal_main_chain c temp ⟨MID_THROTTLE, f⟩
      = if temp ≤ c.reset_low_degC then ⟨UNTHROTTLE, f⟩
        else if temp < c.reset_mid_degC then ⟨LOW_THROTTLE, c.freq_low_KHz⟩
        else if c.trip_high_degC ≤ temp then ⟨HIGH_THROTTLE, c.freq_high_KHz⟩
        else ⟨MID_THROTTLE, f⟩ := by
  simp [msm_thermal_main_chain, thermal_state.toNat]

theorem chain_high (c : thermal_config) (temp f : Nat) :
    msm_thermal_main_chain c temp ⟨HIGH_THROTTLE, f⟩
      = if temp ≤ c.reset_low_degC then ⟨UNTHROTTLE, f⟩
        else if temp < c.reset_mid_degC then ⟨LOW_THROTTLE, c.freq_low_KHz⟩
        else if temp < c.reset_high_degC then ⟨MID_THROTTLE, c.freq_mid_KHz⟩
        else ⟨HIGH_THROTTLE, f⟩ := by
  simp [msm_thermal_main_chain, thermal_state.toNat]

theorem chain_idempotent (c : thermal_config) (temp : Nat) (t : throttle_policy)
    (h1 : c.trip_low_degC ≤ c.trip_mid_degC) (h2 : c.trip_mid_degC ≤ c.trip_high_degC)
    (h3 : c.reset_low_degC < c.trip_low_degC) (h4 : c.reset_mid_degC ≤ c.trip_mid_degC)
    (h5 : c.reset_high_degC ≤ c.trip_high_degC) :
    msm_thermal_main_chain c temp (msm_thermal_main_chain c temp t)
      = msm_thermal_main_chain c temp t := by
  obtain ⟨l, f⟩ := t
  cases l <;>
    simp only [chain_unthrottle, chain_low, chain_mid, chain_high] <;>
    split_ifs <;>
    simp only [chain_unthrottle, chain_low, chain_mid, chain_high] <;>
    split_ifs <;> first | rfl | omega

theorem adjust_max (s : kstate) (policy : cpufreq_policy) :
    (cpu_do_throttle s CPUFREQ_ADJUST policy).2.1.max
      = if (s.throttle_info policy.cpu).cpu_throttle = UNTHROTTLE then
          (if s.t_conf.user_maxfreq ≠ 0 then s.t_conf.user_maxfreq
           else policy.cpuinfo.max_freq)
        else
          (if s.t_conf.user_maxfreq ≠ 0 ∧
              s.t_conf.user_maxfreq < (s.throttle_info policy.cpu).throttle_freq
           then s.t_conf.user_maxfreq
           else (s.throttle_info policy.cpu).throttle_freq) := by
  unfold cpu_do_throttle
  simp only [ne_eq, not_true_eq_false, if_false]
  cases (s.throttle_info policy.cpu).cpu_throttle <;> dsimp only <;> split_ifs <;> first | rfl | simp_all

/-! ## Lemmas about the scheduler primitives and `unthrottle_all_cpus` -/

theorem queue_info (d : Nat) (s : kstate) :
    (queue_delayed_work_on d s).throttle_info = s.throttle_info := by
  unfold queue_delayed_work_on
  cases s.thermal_work <;> rfl

theorem queue_t_conf (d : Nat) (s : kstate) :
    (queue_delayed_work_on d s).t_conf = s.t_conf := by
  unfold queue_delayed_work_on
  cases s.thermal_work <;> rfl

theorem main_info_of_ge (e : kenv) (ret : Int) (temp cpu : Nat) (s : kstate)
    (h : e.nr_cpu_ids ≤ cpu) :
    (msm_thermal_main e ret temp s).1.throttle_info cpu = s.throttle_info cpu := by
  unfold msm_thermal_main
  split_ifs
  · rw [queue_info]
  · simp only [queue_info]
    exact main_fold_info_of_not_mem e s.t_conf temp cpu _ _
      (fun hm => absurd (List.mem_range.mp hm) (by omega))

theorem unthrottle_fold_info_of_not_mem (e : kenv) (cpu : Nat) (l : List Nat)
    (st : (Nat → throttle_policy) × List event) (h : cpu ∉ l) :
    (l.foldl (unthrottle_all_cpus_body e) st).1 cpu = st.1 cpu := by
  induction l generalizing st with
  | nil => rfl
  | cons a l ih =>
    have ha : cpu ≠ a := fun hEq => h (hEq ▸ List.mem_cons_self _ _)
    have hl : cpu ∉ l := fun hm => h (List.mem_cons_of_mem _ hm)
    rw [List.foldl_cons, ih _ hl]
    simp [unthrottle_all_cpus_body, per_cpu_set, ha]

theorem unthrottle_fold_info_of_mem (e : kenv) (cpu : Nat) (l : List Nat)
    (st : (Nat → throttle_policy) × List event) (hnd : l.Nodup) (h : cpu ∈ l) :
    (l.foldl (unthrottle_all_cpus_body e) st).1 cpu
      = { st.1 cpu with cpu_throttle := UNTHROTTLE } := by
  induction l generalizing st with
  | nil => cases h
  | cons a l ih =>
    rw [List.nodup_cons] at hnd
    rw [List.foldl_cons]
    rcases List.mem_cons.mp h with hEq | hm
    · subst hEq
      rw [unthrottle_fold_info_of_not_mem e cpu l _ hnd.1]
      simp [unthrottle_all_cpus_body, per_cpu_set]
    · have ha : cpu ≠ a := fun hEq => hnd.1 (hEq ▸ hm)
      rw [ih _ hnd.2 hm]
      simp [unthrottle_all_cpus_body, per_cpu_set, ha]

theorem unthrottle_fold_events (e : kenv) (l : List Nat)
    (st : (Nat → throttle_policy) × List event) :
    (l.foldl (unthrottle_all_cpus_body e) st).2
      = st.2 ++ (l.filter e.cpu_online).map event.cpufreq_update_policy := by
  induction l generalizing st with
  | nil => simp
  | cons a l ih =>
    rw [List.foldl_cons, ih]
    cases ha : e.cpu_online a <;> simp [unthrottle_all_cpus_body, ha, List.filter_cons]

theorem unthrottle_info (e : kenv) (s : kstate) (cpu : Nat) :
    (unthrottle_all_cpus e s).1.throttle_info cpu
      = if cpu < e.nr_cpu_ids then { s.throttle_info cpu with cpu_throttle := UNTHROTTLE }
        else s.throttle_info cpu := by
  unfold unthrottle_all_cpus
  by_cases hc : cpu < e.nr_cpu_ids
  · rw [if_pos hc]
    exact unthrottle_fold_info_of_mem e cpu _ _ (List.nodup_range _) (List.mem_range.mpr hc)
  · rw [if_neg hc]
    exact unthrottle_fold_info_of_not_mem e cpu _ _ (fun hm => hc (List.mem_range.mp hm))

theorem unthrottle_events (e : kenv) (s : kstate) :
    (unthrottle_all_cpus e s).2
      = ((List.range e.nr_cpu_ids).filter e.cpu_online).map event.cpufreq_update_policy := by
  unfold unthrottle_all_cpus
  simp [unthrottle_fold_events]

/-! ## Lemmas about runs -/

theorem cap_matches_of_unthrottle (c : thermal_config) (t : throttle_policy)
    (h : t.cpu_throttle = UNTHROTTLE) : cap_matches_level c t := by
  simp [cap_matches_level, h]

theorem cap_matches_of_same_ceilings (c d : thermal_config) (t : throttle_policy)
    (h : cap_matches_level c t) (hcd : same_ceilings c d) : cap_matches_level d t := by
  obtain ⟨hl, hm, hh⟩ := hcd
  unfold cap_matches_level at h ⊢
  rw [← hl, ← hm, ← hh]
  exact h

theorem is_ceiling_of_cap_matches (c : thermal_config) (t : throttle_policy)
    (h : cap_matches_level c t) (hne : t.cpu_throttle ≠ UNTHROTTLE) :
    is_ceiling c t.throttle_freq := by
  obtain ⟨l, f⟩ := t
  cases l
  · exact absurd rfl hne
  · exact Or.inl (h.1 rfl)
  · exact Or.inr (Or.inl (h.2.1 rfl))
  · exact Or.inr (Or.inr (h.2.2 rfl))

theorem chain_record_cases (c : thermal_config) (temp : Nat) (t : throttle_policy) :
    msm_thermal_main_chain c temp t = t
      ∨ (msm_thermal_main_chain c temp t).cpu_throttle = UNTHROTTLE
      ∨ cap_matches_level c (msm_thermal_main_chain c temp t) := by
  unfold msm_thermal_main_chain
  split_ifs <;> simp [cap_matches_level]

theorem apply_action_record (k : kenv) (s : kstate) (a : action) (cpu : Nat) :
    (apply_action k s a).throttle_info cpu = s.throttle_info cpu
      ∨ ((apply_action k s a).throttle_info cpu).cpu_throttle = UNTHROTTLE
      ∨ (∃ online temp, a = action.poll online 0 temp ∧ temp ≤ 1000 ∧ cpu < k.nr_cpu_ids ∧
          cap_matches_level s.t_conf ((apply_action k s a).throttle_info cpu)) := by
  cases a with
  | poll online ret temp =>
    by_cases hf : ret ≠ 0 ∨ temp > 1000
    · left
      simp only [apply_action]
      rw [main_info_fault _ ret temp s hf]
    · have hret : ret = 0 := by
        by_contra hne
        exact hf (Or.inl hne)
      have htemp : temp ≤ 1000 := by
        by_contra hgt
        exact hf (Or.inr (by omega))
      subst hret
      by_cases hc : cpu < k.nr_cpu_ids
      · have hrec : (apply_action k s (action.poll online 0 temp)).throttle_info cpu
            = msm_thermal_main_chain s.t_conf temp (s.throttle_info cpu) := by
          simp only [apply_action]
          rw [main_info_valid _ s temp cpu htemp, if_pos hc]
        rw [hrec]
        rcases chain_record_cases s.t_conf temp (s.throttle_info cpu) with h | h | h
        · exact Or.inl h
        · exact Or.inr (Or.inl h)
        · exact Or.inr (Or.inr ⟨online, temp, rfl, htemp, hc, h⟩)
      · left
        simp only [apply_action]
        rw [main_info_valid _ s temp cpu htemp, if_neg hc]
  | unthrottle_all online =>
    simp only [apply_action, unthrottle_info]
    split_ifs
    · right
      left
      rfl
    · left
      rfl
  | high_thresh ret d0 d1 d2 size =>
    left
    simp only [apply_action, high_thresh_write]
    split_ifs <;> rfl
  | mid_thresh ret d0 d1 d2 size =>
    left
    simp only [apply_action, mid_thresh_write]
    split_ifs <;> rfl
  | low_thresh ret d0 d1 d2 size =>
    left
    simp only [apply_action, low_thresh_write]
    split_ifs <;> rfl
  | sampling_ms ret d size =>
    left
    simp only [apply_action, sampling_ms_write]
    split_ifs <;> rfl
  | enabled online ret d size =>
    simp only [apply_action, enabled_write]
    split_ifs
    · left
      rfl
    · left
      rw [queue_info]
      rfl
    · rw [unthrottle_info]
      split_ifs
      · right
        left
        rfl
      · left
        rfl
  | user_maxfreq ret d size =>
    left
    simp only [apply_action, user_maxfreq_write]
    split_ifs <;> rfl

theorem run_actions_concat (k : kenv) (s : kstate) (l : List action) (a : action) :
    run_actions k s (l ++ [a]) = apply_action k (run_actions k s l) a := by
  simp [run_actions, List.foldl_append]

theorem run_cap_set_by_a_poll (k : kenv) (s0 : kstate)
    (h0 : ∀ c, (s0.throttle_info c).cpu_throttle = UNTHROTTLE) (cpu : Nat)
    (acts : List action) :
    ((run_actions k s0 acts).throttle_info cpu).cpu_throttle ≠ UNTHROTTLE →
    ∃ pre post online temp, acts = pre ++ action.poll online 0 temp :: post ∧
      temp ≤ 1000 ∧ cpu < k.nr_cpu_ids ∧
      (run_actions k s0 (pre ++ [action.poll online 0 temp])).throttle_info cpu
        = (run_actions k s0 acts).throttle_info cpu ∧
      cap_matches_level (run_actions k s0 pre).t_conf
        ((run_actions k s0 acts).throttle_info cpu) := by
  induction acts using List.reverseRecOn with
  | nil =>
    intro hne
    exact absurd (h0 cpu) hne
  | append_singleton l a ih =>
    intro hne
    rw [run_actions_concat] at hne ⊢
    rcases apply_action_record k (run_actions k s0 l) a cpu with hsame | hun | hset
    · rw [hsame] at hne ⊢
      obtain ⟨pre, post, online, temp, hl, htemp, hcpu, hrec, hcap⟩ := ih hne
      refine ⟨pre, post ++ [a], online, temp, ?_, htemp, hcpu, hrec, hcap⟩
      rw [hl]
      simp
    · exact absurd hun hne
    · obtain ⟨online, temp, ha, htemp, hcpu, hcap⟩ := hset
      refine ⟨l, [], online, temp, by rw [ha], htemp, hcpu, ?_, hcap⟩
      rw [run_actions_concat, ha]

theorem run_cap_matches_current (k : kenv) (cpu : Nat) (acts : List action) :
    ∀ s0 : kstate, cap_matches_level s0.t_conf (s0.throttle_info cpu) →
      ceiling_writes_while_unthrottled k cpu s0 acts →
      cap_matches_level (run_actions k s0 acts).t_conf
        ((run_actions k s0 acts).throttle_info cpu) := by
  induction acts with
  | nil =>
    intro s0 h0 _
    exact h0
  | cons a acts ih =>
    intro s0 h0 hw
    obtain ⟨hstep, hrest⟩ := hw
    refine ih (apply_action k s0 a) ?_ hrest
    rcases apply_action_record k s0 a cpu with hsame | hun | hset
    · rw [hsame]
      rcases hstep with hu | hc
      · exact cap_matches_of_unthrottle _ _ hu
      · exact cap_matches_of_same_ceilings _ _ _ h0 hc
    · exact cap_matches_of_unthrottle _ _ hun
    · obtain ⟨online, temp, ha, _, _, hcap⟩ := hset
      have hconf : (apply_action k s0 a).t_conf = s0.t_conf := by
        rw [ha]
        exact main_t_conf _ _ _ _
      rw [hconf]
      exact hcap

theorem disabled_inv_of_same (k : kenv) (s s1 : kstate) (h : disabled_inv k s)
    (hinfo : s1.throttle_info = s.throttle_info) (hwork : s1.thermal_work = s.thermal_work)
    (hen : s1.t_conf.enabled = s.t_conf.enabled) : disabled_inv k s1 := by
  unfold disabled_inv at h ⊢
  rw [hinfo, hwork, hen]
  exact h

theorem disabled_inv_unthrottle (k : kenv) (online : Nat → Bool) (s : kstate)
    (h : ∀ cpu, k.nr_cpu_ids ≤ cpu → (s.throttle_info cpu).cpu_throttle = UNTHROTTLE)
    (hwork : s.t_conf.enabled = 0 → s.thermal_work = none) :
    disabled_inv k (unthrottle_all_cpus { k with cpu_online := online } s).1 := by
  have hall : ∀ cpu, ((unthrottle_all_cpus { k with cpu_online := online } s).1.throttle_info
      cpu).cpu_throttle = UNTHROTTLE := by
    intro cpu
    rw [unthrottle_info]
    split_ifs with hc
    · rfl
    · exact h cpu (Nat.le_of_not_lt hc)
  exact ⟨fun cpu _ => hall cpu, fun hen => ⟨hall, hwork hen⟩⟩

theorem disabled_inv_step (k : kenv) (s s1 : kstate) (a : action) (h : disabled_inv k s)
    (hstep : sched_step k s a = some s1) : disabled_inv k s1 := by
  cases a with
  | poll online ret temp =>
    simp only [sched_step] at hstep
    cases hw : s.thermal_work with
    | none =>
      rw [hw] at hstep
      cases hstep
    | some d =>
      rw [hw] at hstep
      have hs1 := Option.some.inj hstep
      have hen : s.t_conf.enabled ≠ 0 := by
        intro h0
        have hnone := (h.2 h0).2
        rw [hw] at hnone
        cases hnone
      refine ⟨?_, ?_⟩
      · intro cpu hc
        rw [← hs1, main_info_of_ge { k with cpu_online := online } ret temp cpu _ hc]
        exact h.1 cpu hc
      · intro h0
        rw [← hs1, main_t_conf] at h0
        exact absurd h0 hen
  | unthrottle_all online =>
    have hs1 := Option.some.inj hstep
    rw [← hs1]
    exact disabled_inv_unthrottle k online s h.1 (fun hen => (h.2 hen).2)
  | high_thresh ret d0 d1 d2 size =>
    have hs1 := Option.some.inj hstep
    rw [← hs1]
    refine disabled_inv_of_same k s _ h ?_ ?_ ?_ <;>
      simp only [apply_action, high_thresh_write] <;> split_ifs <;> rfl
  | mid_thresh ret d0 d1 d2 size =>
    have hs1 := Option.some.inj hstep
    rw [← hs1]
    refine disabled_inv_of_same k s _ h ?_ ?_ ?_ <;>
      simp only [apply_action, mid_thresh_write] <;> split_ifs <;> rfl
  | low_thresh ret d0 d1 d2 size =>
    have hs1 := Option.some.inj hstep
    rw [← hs1]
    refine disabled_inv_of_same k s _ h ?_ ?_ ?_ <;>
      simp only [apply_action, low_thresh_write] <;> split_ifs <;> rfl
  | sampling_ms ret d size =>
    have hs1 := Option.some.inj hstep
    rw [← hs1]
    refine disabled_inv_of_same k s _ h ?_ ?_ ?_ <;>
      simp only [apply_action, sampling_ms_write] <;> split_ifs <;> rfl
  | user_maxfreq ret d size =>
    have hs1 := Option.some.inj hstep
    rw [← hs1]
    refine disabled_inv_of_same k s _ h ?_ ?_ ?_ <;>
      simp only [apply_action, user_maxfreq_write] <;> split_ifs <;> rfl
  | enabled online ret d size =>
    have hs1 := Option.some.inj hstep
    rw [← hs1]
    simp only [apply_action, enabled_write]
    split_ifs with hret hd
    · exact h
    · refine ⟨?_, ?_⟩
      · intro cpu hc
        rw [queue_info]
        exact h.1 cpu hc
      · intro h0
        rw [queue_t_conf] at h0
        exact absurd h0 hd
    · exact disabled_inv_unthrottle k online _ h.1 (fun _ => rfl)

theorem disabled_inv_run (k : kenv) (acts : List action) :
    ∀ s0 s : kstate, disabled_inv k s0 → sched_run k s0 acts = some s → disabled_inv k s := by
  induction acts with
  | nil =>
    intro s0 s h0 hrun
    simp only [sched_run] at hrun
    rw [← Option.some.inj hrun]
    exact h0
  | cons a acts ih =>
    intro s0 s h0 hrun
    simp only [sched_run] at hrun
    cases hstep : sched_step k s0 a with
    | none =>
      rw [hstep] at hrun
      cases hrun
    | some s1 =>
      rw [hstep] at hrun
      exact ih s1 s (disabled_inv_step k s0 s1 a h0 hstep) hrun

theorem disabled_inv_initial (k : kenv) : disabled_inv k initial_state :=
  ⟨fun _ _ => rfl, fun _ => ⟨fun _ => rfl, rfl⟩⟩

/-! ## Properties of the driver -/

/-- C1: with a successful sensor read and `temp ≤ 1000`, one pass of
`msm_thermal_main` maps the record of every possible cpu to the result of the
first matching rule of the ordered chain (low trip, low clear, mid trip, mid
clear, high trip, high clear, otherwise unchanged), computed from that cpu's own
prior record, the temperature and the configuration only. -/
theorem C1_main_applies_first_matching_rule (e : kenv) (s : kstate) (ret : Int)
    (temp cpu : Nat) (hret : ret = 0) (htemp : temp ≤ 1000) (hcpu : cpu < e.nr_cpu_ids) :
    (msm_thermal_main e ret temp s).1.throttle_info cpu
      = spec_first_match spec_rules s.t_conf temp (s.throttle_info cpu) := by
  subst hret
  rw [main_info_valid e s temp cpu htemp, if_pos hcpu, chain_eq_spec]

/-- C1 witness: cpu 1 of a four-cpu system at 52 degrees under
`conf_ordered`. -/
theorem C1_main_applies_first_matching_rule_witness :
    (52 : Nat) ≤ 1000 ∧ 1 < env4.nr_cpu_ids ∧
    (msm_thermal_main env4 0 52 state_ordered).1.throttle_info 1
      = spec_first_match spec_rules state_ordered.t_conf 52 (state_ordered.throttle_info 1) :=
  ⟨by decide, by decide,
    C1_main_applies_first_matching_rule env4 state_ordered 0 52 1 rfl (by decide) (by decide)⟩

/-- C2: on `CPUFREQ_ADJUST` the notifier sets `policy.max` to the user maximum
if set, else the hardware maximum, for an unthrottled cpu, and to the user
maximum if set and below the cap, else the cap, for a throttled cpu. For a cpu at
`MID_THROTTLE` whose cap is the mid ceiling: an unset user maximum gives the mid
ceiling, a set one below it gives the user maximum, one above it gives the mid
ceiling. -/
theorem C2_adjust_sets_policy_max (s : kstate) (policy : cpufreq_policy) :
    ((s.throttle_info policy.cpu).cpu_throttle = UNTHROTTLE →
      (cpu_do_throttle s CPUFREQ_ADJUST policy).2.1.max
        = if s.t_conf.user_maxfreq ≠ 0 then s.t_conf.user_maxfreq
          else policy.cpuinfo.max_freq) ∧
    ((s.throttle_info policy.cpu).cpu_throttle ≠ UNTHROTTLE →
      (cpu_do_throttle s CPUFREQ_ADJUST policy).2.1.max
        = if s.t_conf.user_maxfreq ≠ 0 ∧
              s.t_conf.user_maxfreq < (s.throttle_info policy.cpu).throttle_freq
          then s.t_conf.user_maxfreq
          else (s.throttle_info policy.cpu).throttle_freq) ∧
    ((s.throttle_info policy.cpu).cpu_throttle = MID_THROTTLE →
      (s.throttle_info policy.cpu).throttle_freq = s.t_conf.freq_mid_KHz →
      (s.t_conf.user_maxfreq = 0 →
        (cpu_do_throttle s CPUFREQ_ADJUST policy).2.1.max = s.t_conf.freq_mid_KHz) ∧
      (0 < s.t_conf.user_maxfreq → s.t_conf.user_maxfreq < s.t_conf.freq_mid_KHz →
        (cpu_do_throttle s CPUFREQ_ADJUST policy).2.1.max = s.t_conf.user_maxfreq) ∧
      (s.t_conf.user_maxfreq > s.t_conf.freq_mid_KHz →
        (cpu_do_throttle s CPUFREQ_ADJUST policy).2.1.max = s.t_conf.freq_mid_KHz)) := by
  rw [adjust_max]
  refine ⟨?_, ?_, ?_⟩
  · intro h
    rw [if_pos h]
  · intro h
    rw [if_neg h]
  · intro h hcap
    have hne : (s.throttle_info policy.cpu).cpu_throttle ≠ UNTHROTTLE := by
      rw [h]
      decide
    rw [if_neg hne, hcap]
    refine ⟨?_, ?_, ?_⟩
    · intro h0
      simp [h0]
    · intro hpos hlt
      have hne0 : s.t_conf.user_maxfreq ≠ 0 := by omega
      simp [hne0, hlt]
    · intro hgt
      have hnlt : ¬ s.t_conf.user_maxfreq < s.t_conf.freq_mid_KHz := by omega
      simp [hnlt]

/-- C2 witness: cpu 0 at `MID_THROTTLE` with the mid ceiling 600000 as cap and
a user maximum of 500000 gets `policy.max = 500000`. -/
theorem C2_adjust_sets_policy_max_witness :
    (cpu_do_throttle state_mid CPUFREQ_ADJUST policy_cpu0).2.1.max = 500000 :=
  ((C2_adjust_sets_policy_max state_mid policy_cpu0).2.2 (by decide) (by decide)).2.1
    (by decide) (by decide)

/-- C3: a poll cycle whose sensor read failed, or whose reading is above 1000,
leaves the level and the cap of every cpu as they were. -/
theorem C3_sensor_fault_keeps_per_cpu_state (e : kenv) (s : kstate) (ret : Int)
    (temp : Nat) (h : ret ≠ 0 ∨ temp > 1000) :
    (msm_thermal_main e ret temp s).1.throttle_info = s.throttle_info :=
  main_info_fault e ret temp s h

/-- C3 witness: a reading of 1001 with cpu 0 at `MID_THROTTLE`. -/
theorem C3_sensor_fault_keeps_per_cpu_state_witness :
    ((0 : Int) ≠ 0 ∨ 1001 > 1000) ∧
    (msm_thermal_main env4 0 1001 state_mid).1.throttle_info = state_mid.throttle_info :=
  ⟨by decide, C3_sensor_fault_keeps_per_cpu_state env4 state_mid 0 1001 (by decide)⟩

/-- C4 counterexample: under `conf_ordered` a reading of 65 takes an
unthrottled cpu straight to `MID_THROTTLE`, two steps up in one cycle. -/
theorem C4_counterexample :
    (65 : Nat) ≤ 1000 ∧
    (state_ordered.throttle_info 0).cpu_throttle = UNTHROTTLE ∧
    ((msm_thermal_main env4 0 65 state_ordered).1.throttle_info 0).cpu_throttle
      = MID_THROTTLE ∧
    ¬ within_one_step (state_ordered.throttle_info 0).cpu_throttle
        ((msm_thermal_main env4 0 65 state_ordered).1.throttle_info 0).cpu_throttle := by
  decide

/-- C4 (amended): with a valid reading, the level of a possible cpu after one
poll cycle is within one step of its prior level exactly when the reading is not
one at which the chain skips a level (`skips_a_level`): from `UNTHROTTLE` a
reading at or above `trip_mid` (or at or above `trip_high` and below `trip_low`),
from `LOW_THROTTLE` a reading above `reset_low` and at or above `trip_high`, from
`MID_THROTTLE` a reading at or below `reset_low`, from `HIGH_THROTTLE` a reading
at or below `reset_low` or below `reset_mid`. -/
theorem C4_one_step_iff_no_level_skipped (e : kenv) (s : kstate) (ret : Int)
    (temp cpu : Nat) (hret : ret = 0) (htemp : temp ≤ 1000) (hcpu : cpu < e.nr_cpu_ids) :
    within_one_step (s.throttle_info cpu).cpu_throttle
        ((msm_thermal_main e ret temp s).1.throttle_info cpu).cpu_throttle
      ↔ ¬ skips_a_level s.t_conf temp (s.throttle_info cpu).cpu_throttle := by
  subst hret
  rw [main_info_valid e s temp cpu htemp, if_pos hcpu]
  exact chain_within_one_step_iff s.t_conf temp (s.throttle_info cpu)

/-- C4 witness: at 52 degrees under `conf_ordered` an unthrottled cpu moves one
step, to `LOW_THROTTLE`. -/
theorem C4_one_step_iff_no_level_skipped_witness :
    within_one_step (state_ordered.throttle_info 0).cpu_throttle
      ((msm_thermal_main env4 0 52 state_ordered).1.throttle_info 0).cpu_throttle :=
  (C4_one_step_iff_no_level_skipped env4 state_ordered 0 52 0 rfl (by decide) (by decide)).mpr
    (by simp [skips_a_level, state_ordered, initial_state, conf_ordered])

/-- C5 counterexample: with `reset_low = trip_low = 50` (and the other
thresholds ordered) a constant reading of 50 takes an unthrottled cpu to
`LOW_THROTTLE` in one cycle and back to `UNTHROTTLE` in the next. -/
theorem C5_counterexample :
    (conf_low_boundary.trip_low_degC ≤ conf_low_boundary.trip_mid_degC ∧
      conf_low_boundary.trip_mid_degC ≤ conf_low_boundary.trip_high_degC ∧
      conf_low_boundary.reset_low_degC ≤ conf_low_boundary.trip_low_degC ∧
      conf_low_boundary.reset_mid_degC ≤ conf_low_boundary.trip_mid_degC ∧
      conf_low_boundary.reset_high_degC ≤ conf_low_boundary.trip_high_degC ∧
      (50 : Nat) ≤ 1000) ∧
    (msm_thermal_main env4 0 50 state_low_boundary).1.throttle_info 0
      = { cpu_throttle := LOW_THROTTLE, throttle_freq := 900000 } ∧
    (msm_thermal_main env4 0 50
        (msm_thermal_main env4 0 50 state_low_boundary).1).1.throttle_info 0
      = { cpu_throttle := UNTHROTTLE, throttle_freq := 900000 } ∧
    msm_thermal_main_chain conf_low_boundary 50
        (msm_thermal_main_chain conf_low_boundary 50 (state_low_boundary.throttle_info 0))
      ≠ msm_thermal_main_chain conf_low_boundary 50 (state_low_boundary.throttle_info 0) := by
  decide

/-- C5 (amended): when the trip points are ordered, `reset_low` is strictly
below `trip_low`, `reset_mid ≤ trip_mid` and `reset_high ≤ trip_high`, a second
poll cycle at the same valid reading changes no per-cpu record: the per-cpu
transition applied twice equals the transition applied once. -/
theorem C5_constant_reading_is_stable (e : kenv) (s : kstate) (ret : Int) (temp : Nat)
    (hret : ret = 0) (htemp : temp ≤ 1000)
    (h1 : s.t_conf.trip_low_degC ≤ s.t_conf.trip_mid_degC)
    (h2 : s.t_conf.trip_mid_degC ≤ s.t_conf.trip_high_degC)
    (h3 : s.t_conf.reset_low_degC < s.t_conf.trip_low_degC)
    (h4 : s.t_conf.reset_mid_degC ≤ s.t_conf.trip_mid_degC)
    (h5 : s.t_conf.reset_high_degC ≤ s.t_conf.trip_high_degC) :
    (∀ t : throttle_policy,
      msm_thermal_main_chain s.t_conf temp (msm_thermal_main_chain s.t_conf temp t)
        = msm_thermal_main_chain s.t_conf temp t) ∧
    (msm_thermal_main e ret temp (msm_thermal_main e ret temp s).1).1.throttle_info
      = (msm_thermal_main e ret temp s).1.throttle_info := by
  subst hret
  refine ⟨fun t => chain_idempotent s.t_conf temp t h1 h2 h3 h4 h5, ?_⟩
  funext cpu
  rw [main_info_valid e _ temp cpu htemp, main_t_conf, main_info_valid e s temp cpu htemp]
  by_cases hc : cpu < e.nr_cpu_ids
  · rw [if_pos hc, if_pos hc]
    exact chain_idempotent s.t_conf temp _ h1 h2 h3 h4 h5
  · rw [if_neg hc, if_neg hc]

/-- C5 witness: `conf_ordered` at its low trip point, 50 degrees. -/
theorem C5_constant_reading_is_stable_witness :
    (msm_thermal_main env4 0 50 (msm_thermal_main env4 0 50 state_ordered).1).1.throttle_info
      = (msm_thermal_main env4 0 50 state_ordered).1.throttle_info :=
  (C5_constant_reading_is_stable env4 state_ordered 0 50 rfl (by decide) (by decide)
    (by decide) (by decide) (by decide) (by decide)).2

/-- C6 counterexample: after the three bands are configured, one poll cycle at
52 degrees puts cpu 0 at `LOW_THROTTLE` with cap 900000; a write that changes the
low ceiling to 800000 leaves that cap, which is none of the three ceilings of the
configuration then in force. -/
theorem C6_counterexample :
    ((run_actions env4 initial_state acts_retune).throttle_info 0).cpu_throttle
      = LOW_THROTTLE ∧
    ((run_actions env4 initial_state acts_retune).throttle_info 0).throttle_freq = 900000 ∧
    ¬ is_ceiling (run_actions env4 initial_state acts_retune).t_conf
        ((run_actions env4 initial_state acts_retune).throttle_info 0).throttle_freq := by
  decide

/-- C6 (amended): in every state reachable from the initial state by poll
cycles, Unthrottle-All calls and configuration writes, a cpu that is not
unthrottled has the level and cap that some valid poll cycle of the run left it
with, and that cap is the ceiling of that level (so one of the three ceilings)
in the configuration in force at that poll cycle; when every action of the run
that changed a ceiling was applied while the cpu was unthrottled, the cap is the
ceiling of the level, so one of the three ceilings, of the configuration as it
is in that state. -/
theorem C6_cap_is_the_ceiling_set_by_a_poll (k : kenv) (acts : List action) (cpu : Nat)
    (h : ((run_actions k initial_state acts).throttle_info cpu).cpu_throttle ≠ UNTHROTTLE) :
    (∃ pre post online temp, acts = pre ++ action.poll online 0 temp :: post ∧
      temp ≤ 1000 ∧ cpu < k.nr_cpu_ids ∧
      (run_actions k initial_state (pre ++ [action.poll online 0 temp])).throttle_info cpu
        = (run_actions k initial_state acts).throttle_info cpu ∧
      cap_matches_level (run_actions k initial_state pre).t_conf
        ((run_actions k initial_state acts).throttle_info cpu) ∧
      is_ceiling (run_actions k initial_state pre).t_conf
        ((run_actions k initial_state acts).throttle_info cpu).throttle_freq) ∧
    (ceiling_writes_while_unthrottled k cpu initial_state acts →
      cap_matches_level (run_actions k initial_state acts).t_conf
        ((run_actions k initial_state acts).throttle_info cpu) ∧
      is_ceiling (run_actions k initial_state acts).t_conf
        ((run_actions k initial_state acts).throttle_info cpu).throttle_freq) := by
  refine ⟨?_, ?_⟩
  · obtain ⟨pre, post, online, temp, hl, htemp, hcpu, hrec, hcap⟩ :=
      run_cap_set_by_a_poll k initial_state (fun _ => rfl) cpu acts h
    exact ⟨pre, post, online, temp, hl, htemp, hcpu, hrec, hcap,
      is_ceiling_of_cap_matches _ _ hcap h⟩
  · intro hw
    have hcap := run_cap_matches_current k cpu acts initial_state
      (cap_matches_of_unthrottle _ _ rfl) hw
    exact ⟨hcap, is_ceiling_of_cap_matches _ _ hcap h⟩

/-- C6 witness: in the run `acts_tuned` the ceilings are written before the
first poll cycle and the later writes keep them; cpu 0 ends at `MID_THROTTLE`
with cap 600000, the mid ceiling of the final configuration. -/
theorem C6_cap_is_the_ceiling_set_by_a_poll_witness :
    ceiling_writes_while_unthrottled env4 0 initial_state acts_tuned ∧
    (run_actions env4 initial_state acts_tuned).throttle_info 0
      = { cpu_throttle := MID_THROTTLE, throttle_freq := 600000 } ∧
    is_ceiling (run_actions env4 initial_state acts_tuned).t_conf
      ((run_actions env4 initial_state acts_tuned).throttle_info 0).throttle_freq :=
  have hw : ceiling_writes_while_unthrottled env4 0 initial_state acts_tuned :=
    ⟨Or.inl (by decide), Or.inl (by decide), Or.inl (by decide), Or.inl (by decide),
      Or.inr (by decide), Or.inr (by decide), Or.inr (by decide), trivial⟩
  ⟨hw, by decide,
    ((C6_cap_is_the_ceiling_set_by_a_poll env4 acts_tuned 0 (by decide)).2 hw).2⟩

/-- C7: in every state reached from the initial state by attribute writes
(well-formed or not, `enabled` included), Unthrottle-All calls and runs of the
work function that happen only while the work is pending, an enable flag of 0
means that every cpu is at `UNTHROTTLE` and no run is pending, so that the
notifier sets `policy.max` to the user maximum if set, else the hardware
maximum, for every cpu. -/
theorem C7_disabled_means_unthrottled_and_idle (k : kenv) (acts : List action) (s : kstate)
    (hrun : sched_run k initial_state acts = some s) (hen : s.t_conf.enabled = 0) :
    (∀ cpu, (s.throttle_info cpu).cpu_throttle = UNTHROTTLE) ∧
    s.thermal_work = none ∧
    (∀ policy : cpufreq_policy,
      (cpu_do_throttle s CPUFREQ_ADJUST policy).2.1.max
        = if s.t_conf.user_maxfreq ≠ 0 then s.t_conf.user_maxfreq
          else policy.cpuinfo.max_freq) := by
  have hinv := disabled_inv_run k acts initial_state s (disabled_inv_initial k) hrun
  obtain ⟨hall, hwork⟩ := hinv.2 hen
  refine ⟨hall, hwork, ?_⟩
  intro policy
  rw [adjust_max, if_pos (hall policy.cpu)]

/-- C7 witness: the governor is switched on, the work runs once at 72 degrees
(every possible cpu goes to `HIGH_THROTTLE`), and the governor is switched off. -/
theorem C7_disabled_means_unthrottled_and_idle_witness :
    ∃ s, sched_run env4 initial_state acts_on_off = some s ∧ s.t_conf.enabled = 0 ∧
      (∀ cpu, (s.throttle_info cpu).cpu_throttle = UNTHROTTLE) ∧ s.thermal_work = none :=
  ⟨run_actions env4 initial_state acts_on_off, by rfl, by decide,
    (C7_disabled_means_unthrottled_and_idle env4 acts_on_off
      (run_actions env4 initial_state acts_on_off) (by rfl) (by decide)).1,
    (C7_disabled_means_unthrottled_and_idle env4 acts_on_off
      (run_actions env4 initial_state acts_on_off) (by rfl) (by decide)).2.1⟩

/-- C8: `unthrottle_all_cpus` leaves every possible cpu at `UNTHROTTLE`, issues
one `cpufreq_update_policy` for each online possible cpu and for no other, and a
second run gives the same per-cpu records and the same requests as the first. -/
theorem C8_unthrottle_all_resets_and_is_idempotent (e : kenv) (s : kstate) :
    (∀ cpu, cpu < e.nr_cpu_ids →
      ((unthrottle_all_cpus e s).1.throttle_info cpu).cpu_throttle = UNTHROTTLE) ∧
    (unthrottle_all_cpus e s).2
      = ((List.range e.nr_cpu_ids).filter e.cpu_online).map event.cpufreq_update_policy ∧
    (unthrottle_all_cpus e (unthrottle_all_cpus e s).1).1.throttle_info
      = (unthrottle_all_cpus e s).1.throttle_info ∧
    (unthrottle_all_cpus e (unthrottle_all_cpus e s).1).2 = (unthrottle_all_cpus e s).2 := by
  refine ⟨?_, unthrottle_events e s, ?_, ?_⟩
  · intro cpu hc
    rw [unthrottle_info, if_pos hc]
  · funext cpu
    rw [unthrottle_info, unthrottle_info]
    split_ifs <;> rfl
  · rw [unthrottle_events, unthrottle_events]

/-- C8 witness: four cpus, cpus 0 and 1 online, cpu 0 at `MID_THROTTLE`. -/
theorem C8_unthrottle_all_resets_and_is_idempotent_witness :
    ((unthrottle_all_cpus env4 state_mid).1.throttle_info 0).cpu_throttle = UNTHROTTLE ∧
    (unthrottle_all_cpus env4 state_mid).2
      = [event.cpufreq_update_policy 0, event.cpufreq_update_policy 1] :=
  ⟨(C8_unthrottle_all_resets_and_is_idempotent env4 state_mid).1 0 (by decide),
    (C8_unthrottle_all_resets_and_is_idempotent env4 state_mid).2.1.trans (by decide)⟩

/-- C9: when `reset_low ≤ trip_low ≤ trip_mid ≤ trip_high`, a valid reading
strictly below `reset_low` leaves every possible cpu at `UNTHROTTLE` after one
poll cycle, whatever its prior level. -/
theorem C9_below_reset_low_unthrottles (e : kenv) (s : kstate) (ret : Int) (temp cpu : Nat)
    (hret : ret = 0) (htemp : temp ≤ 1000) (hcpu : cpu < e.nr_cpu_ids)
    (h0 : s.t_conf.reset_low_degC ≤ s.t_conf.trip_low_degC)
    (h1 : s.t_conf.trip_low_degC ≤ s.t_conf.trip_mid_degC)
    (h2 : s.t_conf.trip_mid_degC ≤ s.t_conf.trip_high_degC)
    (hlt : temp < s.t_conf.reset_low_degC) :
    ((msm_thermal_main e ret temp s).1.throttle_info cpu).cpu_throttle = UNTHROTTLE := by
  subst hret
  rw [main_info_valid e s temp cpu htemp, if_pos hcpu]
  generalize s.throttle_info cpu = t
  obtain ⟨l, f⟩ := t
  cases l <;>
    simp only [chain_unthrottle, chain_low, chain_mid, chain_high] <;>
    split_ifs <;> first | rfl | omega

/-- C9 witness: cpu 0 at `MID_THROTTLE` under `conf_ordered`, reading 40. -/
theorem C9_below_reset_low_unthrottles_witness :
    (state_mid.throttle_info 0).cpu_throttle = MID_THROTTLE ∧
    ((msm_thermal_main env4 0 40 state_mid).1.throttle_info 0).cpu_throttle = UNTHROTTLE :=
  ⟨by decide,
    C9_below_reset_low_unthrottles env4 state_mid 0 40 0 rfl (by decide) (by decide)
      (by decide) (by decide) (by decide) (by decide)⟩

/-- C10 counterexample: with `trip_low = trip_mid = 50 ≤ trip_high = 70 ≤ 1000`
and every reset point at or below its trip point, the first cycle, at reading
`trip_low`, takes an unthrottled cpu to `MID_THROTTLE`, not to `LOW_THROTTLE`. -/
theorem C10_counterexample :
    (conf_equal_trips.trip_low_degC ≤ conf_equal_trips.trip_mid_degC ∧
      conf_equal_trips.trip_mid_degC ≤ conf_equal_trips.trip_high_degC ∧
      conf_equal_trips.trip_high_degC ≤ 1000 ∧
      conf_equal_trips.reset_low_degC ≤ conf_equal_trips.trip_low_degC ∧
      conf_equal_trips.reset_mid_degC ≤ conf_equal_trips.trip_mid_degC ∧
      conf_equal_trips.reset_high_degC ≤ conf_equal_trips.trip_high_degC) ∧
    (state_equal_trips.throttle_info 0).cpu_throttle = UNTHROTTLE ∧
    ((msm_thermal_main env4 0 conf_equal_trips.trip_low_degC
        state_equal_trips).1.throttle_info 0).cpu_throttle = MID_THROTTLE ∧
    ((msm_thermal_main env4 0 conf_equal_trips.trip_low_degC
        state_equal_trips).1.throttle_info 0).cpu_throttle ≠ LOW_THROTTLE := by
  decide

/-- C10 (amended): when the trip points are strictly increasing,
`trip_low < trip_mid < trip_high ≤ 1000`, and the low and mid reset points are
at or below their trip points (the high reset point plays no part), a possible
cpu that starts at `UNTHROTTLE` and gets three poll cycles with readings `trip_low`, `trip_mid`, `trip_high` is at `LOW_THROTTLE`
with cap `freq_low` after the first, at `MID_THROTTLE` with cap `freq_mid` after
the second and at `HIGH_THROTTLE` with cap `freq_high` after the third. -/
theorem C10_three_rising_cycles (e : kenv) (s : kstate) (ret : Int) (cpu : Nat)
    (hret : ret = 0) (hcpu : cpu < e.nr_cpu_ids)
    (hstart : (s.throttle_info cpu).cpu_throttle = UNTHROTTLE)
    (h1 : s.t_conf.trip_low_degC < s.t_conf.trip_mid_degC)
    (h2 : s.t_conf.trip_mid_degC < s.t_conf.trip_high_degC)
    (h3 : s.t_conf.trip_high_degC ≤ 1000)
    (h4 : s.t_conf.reset_low_degC ≤ s.t_conf.trip_low_degC)
    (h5 : s.t_conf.reset_mid_degC ≤ s.t_conf.trip_mid_degC) :
    (msm_thermal_main e ret s.t_conf.trip_low_degC s).1.throttle_info cpu
      = ⟨LOW_THROTTLE, s.t_conf.freq_low_KHz⟩ ∧
    (msm_thermal_main e ret s.t_conf.trip_mid_degC
        (msm_thermal_main e ret s.t_conf.trip_low_degC s).1).1.throttle_info cpu
      = ⟨MID_THROTTLE, s.t_conf.freq_mid_KHz⟩ ∧
    (msm_thermal_main e ret s.t_conf.trip_high_degC
        (msm_thermal_main e ret s.t_conf.trip_mid_degC
          (msm_thermal_main e ret s.t_conf.trip_low_degC s).1).1).1.throttle_info cpu
      = ⟨HIGH_THROTTLE, s.t_conf.freq_high_KHz⟩ := by
  subst hret
  have e1 : (msm_thermal_main e 0 s.t_conf.trip_low_degC s).1.throttle_info cpu
      = ⟨LOW_THROTTLE, s.t_conf.freq_low_KHz⟩ := by
    rw [main_info_valid e s _ cpu (by omega), if_pos hcpu]
    generalize s.throttle_info cpu = t at hstart
    obtain ⟨l, f⟩ := t
    simp only at hstart
    subst hstart
    rw [chain_unthrottle, if_pos ⟨Nat.le_refl _, h1⟩]
  have e2 : (msm_thermal_main e 0 s.t_conf.trip_mid_degC
      (msm_thermal_main e 0 s.t_conf.trip_low_degC s).1).1.throttle_info cpu
      = ⟨MID_THROTTLE, s.t_conf.freq_mid_KHz⟩ := by
    rw [main_info_valid e _ _ cpu (by omega), if_pos hcpu, e1, main_t_conf, chain_low,
      if_neg (by omega), if_pos ⟨Nat.le_refl _, h2⟩]
  refine ⟨e1, e2, ?_⟩
  rw [main_info_valid e _ _ cpu h3, if_pos hcpu, e2, main_t_conf, main_t_conf, chain_mid,
    if_neg (by omega), if_neg (by omega), if_pos (Nat.le_refl _)]

/-- C10 witness: cpu 0 under `conf_ordered`, readings 50, 60, 70. -/
theorem C10_three_rising_cycles_witness :
    (msm_thermal_main env4 0 70 (msm_thermal_main env4 0 60
        (msm_thermal_main env4 0 50 state_ordered).1).1).1.throttle_info 0
      = ⟨HIGH_THROTTLE, 300000⟩ :=
  (C10_three_rising_cycles env4 state_ordered 0 0 rfl (by decide) (by decide) (by decide)
    (by decide) (by decide) (by decide) (by decide)).2.2

/-! ## Further lemmas about the notifier -/

theorem adjust_min (s : kstate) (policy : cpufreq_policy) :
    (cpu_do_throttle s CPUFREQ_ADJUST policy).2.1.min
      = if policy.min > (cpu_do_throttle s CPUFREQ_ADJUST policy).2.1.max then
          policy.cpuinfo.min_freq
        else policy.min := by
  unfold cpu_do_throttle
  simp only [ne_eq, not_true_eq_false, if_false]
  cases (s.throttle_info policy.cpu).cpu_throttle <;> dsimp only <;> split_ifs <;> rfl

theorem init_failure_returns_error (wq_ok kzalloc_ok kobject_ok : Bool) (sysfs_ret : Int)
    (hfail : init_failed wq_ok kzalloc_ok kobject_ok sysfs_ret) :
    (msm_thermal_init wq_ok kzalloc_ok kobject_ok sysfs_ret).2 ≠ 0 ∧
    (msm_thermal_init wq_ok kzalloc_ok kobject_ok sysfs_ret).1.sysfs_group = false ∧
    (msm_thermal_init wq_ok kzalloc_ok kobject_ok sysfs_ret).1.notifier_registered = wq_ok := by
  rcases hfail with h | h | h | h
  · subst h
    simp [msm_thermal_init, module_state_unloaded, EFAULT]
  · subst h
    cases wq_ok <;> simp [msm_thermal_init, module_state_unloaded, EFAULT, ENOMEM]
  · subst h
    cases wq_ok <;> cases kzalloc_ok <;>
      simp [msm_thermal_init, module_state_unloaded, EFAULT, ENOMEM]
  · cases wq_ok <;> cases kzalloc_ok <;> cases kobject_ok <;>
      simp [msm_thermal_init, module_state_unloaded, EFAULT, ENOMEM, h]

theorem sched_step_poll_pending (k : kenv) (s : kstate) (online : Nat → Bool) (ret : Int)
    (temp d : Nat) (h : s.thermal_work = some d) :
    sched_step k s (action.poll online ret temp)
      = some (msm_thermal_main { k with cpu_online := online } ret temp
          { s with thermal_work := none }).1 := by
  simp only [sched_step, h]

theorem main_work_of_idle (e : kenv) (ret : Int) (temp : Nat) (s : kstate)
    (h : s.thermal_work = none) :
    (msm_thermal_main e ret temp s).1.thermal_work
      = some (e.msecs_to_jiffies s.t_conf.sampling_ms) := by
  unfold msm_thermal_main queue_delayed_work_on
  split_ifs <;> simp [h]

/-! ## Properties of the notifier, the init function and the scheduler -/

/-- C11 counterexample: an unthrottled cpu, a user maximum of 100000 and a
policy whose hardware limits are 300000 .. 2200000 (so `cpuinfo_min ≤
cpuinfo_max`): the notifier leaves `max = 100000` and `min = 300000`. -/
theorem C11_counterexample :
    policy_cpu0.cpuinfo.min_freq ≤ policy_cpu0.cpuinfo.max_freq ∧
    (cpu_do_throttle state_user_low CPUFREQ_ADJUST policy_cpu0).2.1.max = 100000 ∧
    (cpu_do_throttle state_user_low CPUFREQ_ADJUST policy_cpu0).2.1.min = 300000 ∧
    ¬ (cpu_do_throttle state_user_low CPUFREQ_ADJUST policy_cpu0).2.1.min
        ≤ (cpu_do_throttle state_user_low CPUFREQ_ADJUST policy_cpu0).2.1.max := by
  decide

/-- C11 (amended): after an adjust-ceiling event the policy's `min` is the
incoming `min` if that is at most the new `max`, and `cpuinfo_min` otherwise;
hence `min ≤ max` holds whenever `cpuinfo_min` is at most the new `max`, and in
particular for an unthrottled cpu with no user maximum when
`cpuinfo_min ≤ cpuinfo_max`. -/
theorem C11_min_le_max_when_floor_le_max (s : kstate) (policy : cpufreq_policy) :
    (cpu_do_throttle s CPUFREQ_ADJUST policy).2.1.min
      = (if policy.min > (cpu_do_throttle s CPUFREQ_ADJUST policy).2.1.max then
          policy.cpuinfo.min_freq
        else policy.min) ∧
    (policy.cpuinfo.min_freq ≤ (cpu_do_throttle s CPUFREQ_ADJUST policy).2.1.max →
      (cpu_do_throttle s CPUFREQ_ADJUST policy).2.1.min
        ≤ (cpu_do_throttle s CPUFREQ_ADJUST policy).2.1.max) ∧
    (policy.cpuinfo.min_freq ≤ policy.cpuinfo.max_freq →
      (s.throttle_info policy.cpu).cpu_throttle = UNTHROTTLE → s.t_conf.user_maxfreq = 0 →
      (cpu_do_throttle s CPUFREQ_ADJUST policy).2.1.min
        ≤ (cpu_do_throttle s CPUFREQ_ADJUST policy).2.1.max) := by
  have hfloor : policy.cpuinfo.min_freq ≤ (cpu_do_throttle s CPUFREQ_ADJUST policy).2.1.max →
      (cpu_do_throttle s CPUFREQ_ADJUST policy).2.1.min
        ≤ (cpu_do_throttle s CPUFREQ_ADJUST policy).2.1.max := by
    intro h
    rw [adjust_min]
    split_ifs with hgt
    · exact h
    · omega
  refine ⟨adjust_min s policy, hfloor, ?_⟩
  intro hinfo hlevel huser
  apply hfloor
  rw [adjust_max, if_pos hlevel, huser]
  simpa using hinfo

/-- C11 witness: cpu 0 at `MID_THROTTLE` with cap 600000 and a user maximum of
500000, incoming `min` 300000: the hardware floor 300000 is below the new
ceiling 500000. -/
theorem C11_min_le_max_when_floor_le_max_witness :
    (cpu_do_throttle state_mid CPUFREQ_ADJUST policy_cpu0).2.1.min
      ≤ (cpu_do_throttle state_mid CPUFREQ_ADJUST policy_cpu0).2.1.max :=
  (C11_min_le_max_when_floor_le_max state_mid policy_cpu0).2.1 (by decide)

/-- C12: for a reason code other than `CPUFREQ_ADJUST` the notifier returns
the policy object as it got it, and for every reason code it leaves the driver
state, the per-cpu records included, as it was. -/
theorem C12_other_events_are_noops_and_state_is_read_only (s : kstate) (val : Nat)
    (policy : cpufreq_policy) :
    (val ≠ CPUFREQ_ADJUST → (cpu_do_throttle s val policy).2.1 = policy) ∧
    (cpu_do_throttle s val policy).1 = s ∧
    (cpu_do_throttle s val policy).1.throttle_info = s.throttle_info := by
  have hs : (cpu_do_throttle s val policy).1 = s := by
    unfold cpu_do_throttle
    split_ifs <;> rfl
  refine ⟨?_, hs, by rw [hs]⟩
  intro h
  unfold cpu_do_throttle
  rw [if_pos h]

/-- C12 witness: the event `CPUFREQ_NOTIFY` on a cpu at `MID_THROTTLE`. -/
theorem C12_other_events_are_noops_and_state_is_read_only_witness :
    CPUFREQ_NOTIFY ≠ CPUFREQ_ADJUST ∧
    (cpu_do_throttle state_mid CPUFREQ_NOTIFY policy_cpu0).2.1 = policy_cpu0 :=
  ⟨by decide,
    (C12_other_events_are_noops_and_state_is_read_only state_mid CPUFREQ_NOTIFY
      policy_cpu0).1 (by decide)⟩

/-- C13: `msm_thermal_init` registers the notifier as soon as the workqueue
exists and never unregisters it. After a failed `kzalloc` it returns `-ENOMEM`
with the notifier installed and no block behind `t_conf`; after a failed kobject
creation it returns `-ENOMEM` with the notifier installed; after a failed
attribute group creation (return value `-ENOMEM`) it returns that value with
the notifier installed. Only a failed workqueue allocation leaves nothing
behind. -/
theorem C13_init_failure_leaves_notifier_registered (kobject_ok : Bool) (sysfs_ret : Int) :
    ((msm_thermal_init true false kobject_ok sysfs_ret).2 = -ENOMEM ∧
      (msm_thermal_init true false kobject_ok sysfs_ret).1.notifier_registered = true ∧
      (msm_thermal_init true false kobject_ok sysfs_ret).1.t_conf = none ∧
      (msm_thermal_init true false kobject_ok sysfs_ret).1.sysfs_group = false) ∧
    ((msm_thermal_init true true false sysfs_ret).2 = -ENOMEM ∧
      (msm_thermal_init true true false sysfs_ret).1.notifier_registered = true) ∧
    ((msm_thermal_init true true true (-ENOMEM)).2 = -ENOMEM ∧
      (msm_thermal_init true true true (-ENOMEM)).1.notifier_registered = true ∧
      (msm_thermal_init true true true (-ENOMEM)).1.sysfs_group = false) ∧
    msm_thermal_init false false kobject_ok sysfs_ret = (module_state_unloaded, -EFAULT) :=
  ⟨⟨rfl, rfl, rfl, rfl⟩, ⟨rfl, rfl⟩, ⟨by decide, by decide, by decide⟩, rfl⟩

/-- C20: on an adjust-ceiling event the resulting `policy.max` is the same for
two incoming policies of cpus with the same per-cpu record that agree on
`cpuinfo_max`, whatever their incoming `max` and `min`; and the incoming `max` is
overwritten, not lowered: an incoming `max` of 1000000 becomes 2200000 for an
unthrottled cpu with no user maximum. -/
theorem C20_ceiling_ignores_incoming_max (s : kstate) (p q : cpufreq_policy)
    (hrec : s.throttle_info p.cpu = s.throttle_info q.cpu)
    (hinfo : p.cpuinfo.max_freq = q.cpuinfo.max_freq) :
    (cpu_do_throttle s CPUFREQ_ADJUST p).2.1.max
      = (cpu_do_throttle s CPUFREQ_ADJUST q).2.1.max ∧
    policy_cpu0_narrow.max
      < (cpu_do_throttle state_ordered CPUFREQ_ADJUST policy_cpu0_narrow).2.1.max := by
  refine ⟨?_, by decide⟩
  rw [adjust_max, adjust_max, hrec, hinfo]

/-- C20 witness: the policies `policy_cpu0` (incoming `max` 2200000) and
`policy_cpu0_narrow` (incoming `max` 1000000) for cpu 0 at `MID_THROTTLE`. -/
theorem C20_ceiling_ignores_incoming_max_witness :
    policy_cpu0.max ≠ policy_cpu0_narrow.max ∧
    (cpu_do_throttle state_mid CPUFREQ_ADJUST policy_cpu0).2.1.max
      = (cpu_do_throttle state_mid CPUFREQ_ADJUST policy_cpu0_narrow).2.1.max :=
  ⟨by decide, (C20_ceiling_ignores_incoming_max state_mid policy_cpu0 policy_cpu0_narrow
    rfl rfl).1⟩

/-- C14: a run of the work function, started by the workqueue while the work
is pending, ends with the work queued once more, with the delay
`msecs_to_jiffies (sampling_ms)` of the configuration it ends with, whether the
reading was valid or not; a write to `sampling_ms` leaves the pending delay as it
is, and the run after a well-formed write queues with the written value. -/
theorem C14_run_requeues_with_current_period (k : kenv) (s : kstate)
    (online : Nat → Bool) (ret : Int) (temp d : Nat) (hp : s.thermal_work = some d) :
    (∃ s1, sched_step k s (action.poll online ret temp) = some s1 ∧
      s1.t_conf = s.t_conf ∧
      s1.thermal_work = some (k.msecs_to_jiffies s1.t_conf.sampling_ms)) ∧
    (∀ (wret : Int) (data size : Nat),
      (sampling_ms_write s wret data size).1.thermal_work = s.thermal_work) ∧
    (∀ data size : Nat, ∃ s2,
      sched_step k (sampling_ms_write s 1 data size).1 (action.poll online ret temp) = some s2 ∧
      s2.thermal_work = some (k.msecs_to_jiffies data)) := by
  refine ⟨?_, ?_, ?_⟩
  · refine ⟨_, sched_step_poll_pending k s online ret temp d hp, main_t_conf _ _ _ _, ?_⟩
    rw [main_work_of_idle _ _ _ _ rfl, main_t_conf]
  · intro wret data size
    unfold sampling_ms_write
    split_ifs <;> rfl
  · intro data size
    have hw : (sampling_ms_write s 1 data size).1.thermal_work = some d := by
      simp [sampling_ms_write, hp]
    refine ⟨_, sched_step_poll_pending k _ online ret temp d hw, ?_⟩
    rw [main_work_of_idle _ _ _ _ rfl]
    simp [sampling_ms_write]

/-- C14 witness: a pending run under `conf_ordered` (period 3000 ms, ten
milliseconds per jiffy) with a faulty reading of 1001 requeues with delay 300. -/
theorem C14_run_requeues_with_current_period_witness :
    ∃ s1, sched_step env4 state_pending (action.poll (fun c => decide (c < 2)) 0 1001) = some s1 ∧
      s1.thermal_work = some 300 :=
  have h := (C14_run_requeues_with_current_period env4 state_pending (fun c => decide (c < 2))
    0 1001 0 rfl).1
  ⟨h.choose, h.choose_spec.1, by
    rw [h.choose_spec.2.2, h.choose_spec.2.1]
    decide⟩

/-- C15: a well-formed write to `enabled` gives the same result whether a run
was pending or not (the pending run is cancelled first) and stores the written
value; a non-zero value leaves the work queued with delay 0 and the per-cpu
records as they were; zero leaves every possible cpu at `UNTHROTTLE` and no run
pending. -/
theorem C15_enabled_write_cancels_then_queues_or_unthrottles (e : kenv) (s : kstate)
    (data size : Nat) :
    enabled_write e s 1 data size = enabled_write e (cancel_delayed_work_sync s) 1 data size ∧
    (enabled_write e s 1 data size).1.t_conf.enabled = data ∧
    (data ≠ 0 →
      (enabled_write e s 1 data size).1.thermal_work = some 0 ∧
      (enabled_write e s 1 data size).1.throttle_info = s.throttle_info) ∧
    (data = 0 →
      (∀ cpu, cpu < e.nr_cpu_ids →
        ((enabled_write e s 1 data size).1.throttle_info cpu).cpu_throttle = UNTHROTTLE) ∧
      (enabled_write e s 1 data size).1.thermal_work = none) := by
  refine ⟨rfl, ?_, ?_, ?_⟩
  · unfold enabled_write
    simp only [ne_eq, not_true_eq_false, if_false]
    split_ifs
    · rfl
    · rw [queue_t_conf]
      rfl
  · intro hd
    unfold enabled_write
    simp only [ne_eq, not_true_eq_false, if_false, hd, not_false_eq_true, if_true]
    exact ⟨rfl, rfl⟩
  · intro hd
    subst hd
    unfold enabled_write
    simp only [ne_eq, not_true_eq_false, if_false]
    refine ⟨?_, rfl⟩
    intro cpu hc
    rw [unthrottle_info, if_pos hc]

/-- C15 witness: with a run pending and cpu 0 at `MID_THROTTLE`, writing 1
leaves one run queued with delay 0 and cpu 0 at `MID_THROTTLE`; writing 0 leaves
cpu 0 at `UNTHROTTLE` and nothing queued. -/
theorem C15_enabled_write_cancels_then_queues_or_unthrottles_witness :
    ((enabled_write env4 { state_mid with thermal_work := some 300 } 1 1 2).1.thermal_work
        = some 0 ∧
      ((enabled_write env4 { state_mid with thermal_work := some 300 } 1 1 2).1.throttle_info
        0).cpu_throttle = MID_THROTTLE) ∧
    (((enabled_write env4 { state_mid with thermal_work := some 300 } 1 0 2).1.throttle_info
        0).cpu_throttle = UNTHROTTLE ∧
      (enabled_write env4 { state_mid with thermal_work := some 300 } 1 0 2).1.thermal_work
        = none) :=
  have h1 := (C15_enabled_write_cancels_then_queues_or_unthrottles env4
    { state_mid with thermal_work := some 300 } 1 2).2.2.1 (by decide)
  have h0 := (C15_enabled_write_cancels_then_queues_or_unthrottles env4
    { state_mid with thermal_work := some 300 } 0 2).2.2.2 rfl
  ⟨⟨h1.1, by rw [h1.2]; decide⟩, ⟨h0.1 0 (by decide), h0.2⟩⟩

/-! ## Lemmas about the order of the requests, monotonicity and fixed configurations -/

theorem body_eq_notify_update (e : kenv) (c : thermal_config) (temp : Nat) (st : loop_state)
    (cpu : Nat) :
    msm_thermal_main_body e c temp st cpu
      = msm_thermal_main_notify e (msm_thermal_main_update c temp st cpu) cpu :=
  rfl

theorem update_requests (c : thermal_config) (temp : Nat) (st : loop_state) (cpu : Nat) :
    (msm_thermal_main_update c temp st cpu).events.filter event.is_request
      = st.events.filter event.is_request := by
  simp only [msm_thermal_main_update]
  split_ifs <;> simp [event.is_request]

theorem body_requests (e : kenv) (c : thermal_config) (temp : Nat) (st : loop_state)
    (cpu : Nat) :
    (msm_thermal_main_body e c temp st cpu).events.filter event.is_request
      = st.events.filter event.is_request
        ++ ([cpu].filter e.cpu_online).map event.cpufreq_update_policy := by
  rw [body_eq_notify_update]
  simp only [msm_thermal_main_notify, List.filter_append, update_requests]
  cases h : e.cpu_online cpu <;> simp [h, event.is_request, List.filter_cons]

theorem main_fold_requests (e : kenv) (c : thermal_config) (temp : Nat) (l : List Nat)
    (st : loop_state) :
    (l.foldl (msm_thermal_main_body e c temp) st).events.filter event.is_request
      = st.events.filter event.is_request
        ++ (l.filter e.cpu_online).map event.cpufreq_update_policy := by
  induction l generalizing st with
  | nil => simp
  | cons a l ih =>
    rw [List.foldl_cons, ih, body_requests]
    cases h : e.cpu_online a <;> simp [h, List.filter_cons]

theorem chain_monotone (c : thermal_config) (T1 T2 : Nat) (t : throttle_policy)
    (hT : T1 ≤ T2) (h2 : c.trip_mid_degC ≤ c.trip_high_degC) :
    (msm_thermal_main_chain c T1 t).cpu_throttle.toNat
      ≤ (msm_thermal_main_chain c T2 t).cpu_throttle.toNat := by
  obtain ⟨l, f⟩ := t
  cases l <;>
    simp only [chain_unthrottle, chain_low, chain_mid, chain_high] <;>
    split_ifs <;> simp only [thermal_state.toNat] <;> omega

theorem chain_cap_matches (c : thermal_config) (temp : Nat) (t : throttle_policy)
    (h : cap_matches_level c t) : cap_matches_level c (msm_thermal_main_chain c temp t) := by
  unfold msm_thermal_main_chain
  split_ifs <;> first | exact h | simp [cap_matches_level]

theorem cycle_step (k : kenv) (s : kstate) (a : action) (ha : a.is_cycle)
    (h : ∀ cpu, cap_matches_level s.t_conf (s.throttle_info cpu)) :
    (apply_action k s a).t_conf = s.t_conf ∧
    ∀ cpu, cap_matches_level s.t_conf ((apply_action k s a).throttle_info cpu) := by
  cases a with
  | poll online ret temp =>
    refine ⟨main_t_conf _ _ _ _, ?_⟩
    intro cpu
    simp only [apply_action]
    by_cases hf : ret ≠ 0 ∨ temp > 1000
    · rw [main_info_fault _ ret temp s hf]
      exact h cpu
    · have hret : ret = 0 := by
        by_contra hne
        exact hf (Or.inl hne)
      have htemp : temp ≤ 1000 := by
        by_contra hgt
        exact hf (Or.inr (by omega))
      subst hret
      rw [main_info_valid _ s temp cpu htemp]
      split_ifs
      · exact chain_cap_matches s.t_conf temp _ (h cpu)
      · exact h cpu
  | unthrottle_all online =>
    refine ⟨rfl, ?_⟩
    intro cpu
    simp only [apply_action, unthrottle_info]
    split_ifs
    · simp [cap_matches_level]
    · exact h cpu
  | high_thresh ret d0 d1 d2 size => exact absurd ha (by simp [action.is_cycle])
  | mid_thresh ret d0 d1 d2 size => exact absurd ha (by simp [action.is_cycle])
  | low_thresh ret d0 d1 d2 size => exact absurd ha (by simp [action.is_cycle])
  | sampling_ms ret d size => exact absurd ha (by simp [action.is_cycle])
  | enabled online ret d size => exact absurd ha (by simp [action.is_cycle])
  | user_maxfreq ret d size => exact absurd ha (by simp [action.is_cycle])

theorem cycles_run (k : kenv) (acts : List action) :
    ∀ s0 : kstate, (∀ a ∈ acts, a.is_cycle) →
      (∀ cpu, cap_matches_level s0.t_conf (s0.throttle_info cpu)) →
      (run_actions k s0 acts).t_conf = s0.t_conf ∧
      ∀ cpu, cap_matches_level s0.t_conf ((run_actions k s0 acts).throttle_info cpu) := by
  induction acts with
  | nil =>
    intro s0 _ h0
    exact ⟨rfl, h0⟩
  | cons a acts ih =>
    intro s0 hacts h0
    obtain ⟨hc, hstep⟩ := cycle_step k s0 a (hacts a (List.mem_cons_self _ _)) h0
    have hrest := ih (apply_action k s0 a)
      (fun b hb => hacts b (List.mem_cons_of_mem _ hb)) (by rw [hc]; exact hstep)
    rw [hc] at hrest
    exact hrest

/-! ## Properties of the poll cycle -/

/-- C17: in a poll cycle with a valid reading the `cpufreq_update_policy`
calls are exactly one per online possible cpu, in cpu order, whatever happened
to the levels; the iteration for a cpu first updates the cpu's record and then
issues the request, so that when the request for a cpu is issued it has not been
issued before in this cycle and the cpu's record already has the value it has at
the end of the cycle. In a cycle skipped for a sensor fault there is no such
call. -/
theorem C17_requests_follow_the_update (e : kenv) (s : kstate) (ret : Int) (temp : Nat) :
    (ret = 0 → temp ≤ 1000 →
      (msm_thermal_main e ret temp s).2 = (msm_thermal_main_loop e s temp e.nr_cpu_ids).events ∧
      (msm_thermal_main e ret temp s).2.filter event.is_request
        = ((List.range e.nr_cpu_ids).filter e.cpu_online).map event.cpufreq_update_policy ∧
      ∀ cpu, cpu < e.nr_cpu_ids →
        msm_thermal_main_loop e s temp (cpu + 1)
          = msm_thermal_main_notify e
              (msm_thermal_main_update s.t_conf temp (msm_thermal_main_loop e s temp cpu) cpu)
              cpu ∧
        event.cpufreq_update_policy cpu ∉
          (msm_thermal_main_update s.t_conf temp (msm_thermal_main_loop e s temp cpu) cpu).events ∧
        (msm_thermal_main_update s.t_conf temp
            (msm_thermal_main_loop e s temp cpu) cpu).throttle_info cpu
          = (msm_thermal_main e ret temp s).1.throttle_info cpu ∧
        (e.cpu_online cpu = true →
          (msm_thermal_main_loop e s temp (cpu + 1)).events
            = (msm_thermal_main_update s.t_conf temp
                (msm_thermal_main_loop e s temp cpu) cpu).events
              ++ [event.cpufreq_update_policy cpu])) ∧
    (ret ≠ 0 ∨ temp > 1000 →
      (msm_thermal_main e ret temp s).2.filter event.is_request = []) := by
  refine ⟨?_, ?_⟩
  · intro hret htemp
    subst hret
    have hnot : ¬ ((0 : Int) ≠ 0 ∨ temp > 1000) := by omega
    have hev : (msm_thermal_main e 0 temp s).2
        = (msm_thermal_main_loop e s temp e.nr_cpu_ids).events := by
      unfold msm_thermal_main msm_thermal_main_loop
      rw [if_neg hnot]
    have hloop : ∀ cpu, msm_thermal_main_loop e s temp (cpu + 1)
        = msm_thermal_main_notify e
            (msm_thermal_main_update s.t_conf temp (msm_thermal_main_loop e s temp cpu) cpu)
            cpu := by
      intro cpu
      unfold msm_thermal_main_loop
      rw [List.range_succ, List.foldl_append]
      rfl
    refine ⟨hev, ?_, ?_⟩
    · rw [hev]
      unfold msm_thermal_main_loop
      rw [main_fold_requests]
      rfl
    · intro cpu hcpu
      refine ⟨hloop cpu, ?_, ?_, ?_⟩
      · intro hmem
        have hreq : event.cpufreq_update_policy cpu ∈
            (msm_thermal_main_update s.t_conf temp
              (msm_thermal_main_loop e s temp cpu) cpu).events.filter event.is_request :=
          List.mem_filter.mpr ⟨hmem, rfl⟩
        rw [update_requests] at hreq
        unfold msm_thermal_main_loop at hreq
        rw [main_fold_requests] at hreq
        simp only [List.filter_nil, List.nil_append, List.mem_map, List.mem_filter,
          List.mem_range] at hreq
        obtain ⟨x, ⟨hx, _⟩, hxe⟩ := hreq
        have hxc : x = cpu := by
          injection hxe
        omega
      · rw [main_info_valid e s temp cpu htemp, if_pos hcpu]
        have hold : (msm_thermal_main_loop e s temp cpu).throttle_info cpu
            = s.throttle_info cpu := by
          unfold msm_thermal_main_loop
          exact main_fold_info_of_not_mem e s.t_conf temp cpu _ _
            (fun hm => absurd (List.mem_range.mp hm) (by omega))
        simp only [msm_thermal_main_update, per_cpu_set, if_true, hold]
      · intro hon
        rw [hloop cpu]
        simp only [msm_thermal_main_notify, hon, if_true]
  · intro hf
    unfold msm_thermal_main
    rw [if_pos hf]
    rfl

/-- C17 witness: four cpus with cpus 0 and 1 online at 52 degrees under
`conf_ordered`: all four cpus go to `LOW_THROTTLE`, one line is logged, and the
requests are those for cpu 0 and cpu 1. -/
theorem C17_requests_follow_the_update_witness :
    (msm_thermal_main env4 0 52 state_ordered).2
      = [event.pr_warn_setting 900000 52, event.cpufreq_update_policy 0,
          event.cpufreq_update_policy 1] ∧
    (msm_thermal_main env4 0 52 state_ordered).2.filter event.is_request
      = [event.cpufreq_update_policy 0, event.cpufreq_update_policy 1] :=
  ⟨by decide,
    ((C17_requests_follow_the_update env4 state_ordered 0 52).1 rfl (by decide)).2.1.trans
      (by decide)⟩

/-- C18: the level a possible cpu reaches in one poll cycle from a given
record is monotone in the valid reading: a hotter reading never gives a lower
level. Of the ordering of the thresholds (trip points ordered, every reset point
at or below its trip point) the proof uses `trip_mid ≤ trip_high` only, so the
property holds in particular for every configuration ordered that way. -/
theorem C18_level_is_monotone_in_temperature (e : kenv) (s : kstate) (ret : Int)
    (T1 T2 cpu : Nat) (hret : ret = 0) (hT : T1 ≤ T2) (hT2 : T2 ≤ 1000)
    (hcpu : cpu < e.nr_cpu_ids)
    (h2 : s.t_conf.trip_mid_degC ≤ s.t_conf.trip_high_degC) :
    ((msm_thermal_main e ret T1 s).1.throttle_info cpu).cpu_throttle.toNat
      ≤ ((msm_thermal_main e ret T2 s).1.throttle_info cpu).cpu_throttle.toNat := by
  subst hret
  rw [main_info_valid e s T1 cpu (by omega), main_info_valid e s T2 cpu hT2, if_pos hcpu,
    if_pos hcpu]
  exact chain_monotone s.t_conf T1 T2 _ hT h2

/-- C18 witness: cpu 0 at `MID_THROTTLE` under `conf_ordered`, readings 50 and
72: the cooler one gives `LOW_THROTTLE`, the hotter one `HIGH_THROTTLE`. -/
theorem C18_level_is_monotone_in_temperature_witness :
    ((msm_thermal_main env4 0 50 state_mid).1.throttle_info 0).cpu_throttle = LOW_THROTTLE ∧
    ((msm_thermal_main env4 0 72 state_mid).1.throttle_info 0).cpu_throttle = HIGH_THROTTLE ∧
    ((msm_thermal_main env4 0 50 state_mid).1.throttle_info 0).cpu_throttle.toNat
      ≤ ((msm_thermal_main env4 0 72 state_mid).1.throttle_info 0).cpu_throttle.toNat :=
  ⟨by decide, by decide,
    C18_level_is_monotone_in_temperature env4 state_mid 0 50 72 0 rfl (by decide) (by decide)
      (by decide) (by decide)⟩

/-- C19: from a state in which every cpu is unthrottled, after any sequence of
poll cycles (valid or faulty readings) and Unthrottle-All calls the
configuration is the one of the start and the cap of every cpu is the ceiling of
its own level: `freq_low` at `LOW_THROTTLE`, `freq_mid` at `MID_THROTTLE`,
`freq_high` at `HIGH_THROTTLE`. -/
theorem C19_cap_is_the_ceiling_of_the_level (k : kenv) (s0 : kstate) (acts : List action)
    (cpu : Nat) (h0 : ∀ c, (s0.throttle_info c).cpu_throttle = UNTHROTTLE)
    (hacts : ∀ a ∈ acts, a.is_cycle) :
    (run_actions k s0 acts).t_conf = s0.t_conf ∧
    cap_matches_level (run_actions k s0 acts).t_conf
      ((run_actions k s0 acts).throttle_info cpu) := by
  have hstart : ∀ c, cap_matches_level s0.t_conf (s0.throttle_info c) := by
    intro c
    simp [cap_matches_level, h0 c]
  obtain ⟨hc, hall⟩ := cycles_run k acts s0 hacts hstart
  refine ⟨hc, ?_⟩
  rw [hc]
  exact hall cpu

/-- C19 witness: the run `acts_cycles` under `conf_ordered` ends with cpu 0 at
`HIGH_THROTTLE`, and its cap is `freq_high`. -/
theorem C19_cap_is_the_ceiling_of_the_level_witness :
    ((run_actions env4 state_ordered acts_cycles).throttle_info 0).cpu_throttle
      = HIGH_THROTTLE ∧
    ((run_actions env4 state_ordered acts_cycles).throttle_info 0).throttle_freq
      = (run_actions env4 state_ordered acts_cycles).t_conf.freq_high_KHz :=
  ⟨by decide,
    (C19_cap_is_the_ceiling_of_the_level env4 state_ordered acts_cycles 0 (fun _ => rfl)
      (by simp [acts_cycles, action.is_cycle])).2.2.2 (by decide)⟩

end MsmThermal
